import Mathlib

/-!
# Verification of the NES emulator core (`nes_components/src/lib.rs`)

This file gives a shallow embedding of the emulator's data model and
operations — the PPU memory map, the PPU scanline/dot state machine, the
CPU memory map and the CPU's bus-access / decode layer — and proves
theorems about the claims of the specification against that embedding.

Modelling conventions:
* Rust `u8`/`u16` values are `Nat`, reduced with `% 256` / `% 65536`
  (or masked with `&&& 0xFF` where the source itself masks) exactly where
  the source performs wrapping arithmetic or where an addition could
  exceed the machine width.
* Fixed-size byte arrays (`cpu_ram`, `vram`, `palette_mem`, `oam`,
  `secondary_oam`, `color_buffer`, `chr_rom`, `palette_storage`) are
  modelled as total functions `Nat → Nat`; a store is a pointwise
  function update.  `prg_rom` is kept as a `List Nat` where its length
  matters (PRG mirroring, the reset vector fetch).
* The `minifb` window is an external collaborator; its
  `update_with_buffer` call performs IO only and does not change the
  emulator state, so it is modelled as a no-op (the subsequent
  `color_buffer.fill(0)` is kept).
-/

set_option maxRecDepth 100000

/-- Nametable mirroring mode of the cartridge (`enum Mirroring`). -/
inductive Mirroring where
  | VERTICAL
  | HORIZONTAL
  | FOUR_SCREEN
deriving DecidableEq, Repr

/-- `SCREEN_WIDTH` constant (pixels). -/
def SCREEN_WIDTH : Nat := 256

/-- `SCREEN_HEIGHT` constant (pixels). -/
def SCREEN_HEIGHT : Nat := 240

/-- `NAME_TABLE_SIZE` constant. -/
def NAME_TABLE_SIZE : Nat := 0x400

/-- `NUM_PALETTE_REGISTERS` constant. -/
def NUM_PALETTE_REGISTERS : Nat := 32

/-- `PALETTE_RAM_BEGIN` constant. -/
def PALETTE_RAM_BEGIN : Nat := 0x3F00

/-- `SPRITE_HEIGHT` constant (8 pixels/scanlines). -/
def SPRITE_HEIGHT : Nat := 8

/-- `STACK_BASE` constant. -/
def STACK_BASE : Nat := 0x100

/-- PPU-side memory (`struct PPUBus`): CHR ROM, 2 KiB VRAM, the cartridge
mirroring mode, 32 bytes of palette registers and the 64-entry RGB
palette lookup table loaded from the `.pal` file. -/
structure PPUBus where
  chr_rom : Nat → Nat
  vram : Nat → Nat
  mirroring : Mirroring
  palette_mem : Nat → Nat
  palette_storage : Nat → Nat

/-- Whether a nametable address maps to VRAM bank 0 under the current
mirroring; this is the guard of the `match (self.mirroring, addr)` in
`PPUBus::mem_read` / `PPUBus::mem_write` (the arms
`(HORIZONTAL, 0x2000..0x2800)`, `(VERTICAL, 0x2000..0x2400)` and
`(VERTICAL, 0x2800..0x2C00)`; every other combination takes the
default arm). -/
def PPUBus.nt_bank0 (m : Mirroring) (addr : Nat) : Prop :=
  (m = Mirroring.HORIZONTAL ∧ 0x2000 ≤ addr ∧ addr < 0x2800)
  ∨ (m = Mirroring.VERTICAL ∧ 0x2000 ≤ addr ∧ addr < 0x2400)
  ∨ (m = Mirroring.VERTICAL ∧ 0x2800 ≤ addr ∧ addr < 0x2C00)

instance (m : Mirroring) (addr : Nat) : Decidable (PPUBus.nt_bank0 m addr) := by
  unfold PPUBus.nt_bank0; infer_instance

/-- VRAM index computed for a nametable access: `base_addr = addr & (NAME_TABLE_SIZE - 1)`,
and the default arm adds `NAME_TABLE_SIZE - 1` (that is `0x3FF`). -/
def PPUBus.nt_index (m : Mirroring) (addr : Nat) : Nat :=
  let base_addr := addr &&& (NAME_TABLE_SIZE - 1)
  if PPUBus.nt_bank0 m addr then base_addr else base_addr + (NAME_TABLE_SIZE - 1)

/-- `PPUBus::mem_read`: pattern tables from CHR ROM, nametables from
mirrored VRAM, palette range returns `(addr - PALETTE_RAM_BEGIN) as u8 &
(NUM_PALETTE_REGISTERS - 1)` (an index into `palette_storage`, not a
stored byte), and otherwise the low byte of the address (open bus). -/
def PPUBus.mem_read (pb : PPUBus) (addr : Nat) : Nat :=
  if addr ≤ 0x1FFF then
    pb.chr_rom addr
  else if 0x2000 ≤ addr ∧ addr ≤ 0x2FFF then
    pb.vram (PPUBus.nt_index pb.mirroring addr)
  else if 0x3F00 ≤ addr ∧ addr ≤ 0x3FFF then
    (addr - PALETTE_RAM_BEGIN) &&& (NUM_PALETTE_REGISTERS - 1)
  else
    addr &&& 0xFF

/-- `PPUBus::mem_write`: nametable and palette arms store; every other
address prints a diagnostic and is a no-op. -/
def PPUBus.mem_write (pb : PPUBus) (addr data : Nat) : PPUBus :=
  if 0x2000 ≤ addr ∧ addr ≤ 0x2FFF then
    let idx := PPUBus.nt_index pb.mirroring addr
    { pb with vram := fun i => if i = idx then data else pb.vram i }
  else if 0x3F00 ≤ addr ∧ addr ≤ 0x3FFF then
    let mirrored_addr := (addr - PALETTE_RAM_BEGIN) &&& (NUM_PALETTE_REGISTERS - 1)
    { pb with palette_mem := fun i => if i = mirrored_addr then data else pb.palette_mem i }
  else
    pb

/-- One per-scanline sprite slot (`struct Sprite`). -/
structure Sprite where
  x_coordinate : Nat
  pixel : Nat
  priority : Nat
  horizontal_flip : Nat
  vertical_flip : Nat

/-- Rendering state registers of the PPU (`struct PpuState`). -/
structure PpuState where
  nametable_data : Nat
  attribute_data : Nat
  low_bitplane : Nat
  high_bitplane : Nat
  attribute_latch : Nat
  scanline : Nat
  dots : Nat
  sprite_counter : Nat
  valid_sprite : Bool
  secondary_oam_addr : Nat
  sprite_addr : Nat
  even_odd_frame : Bool

/-- The PPU (`struct PPU`): registers, OAM, shift registers, the
framebuffer and the PPU bus.  The `minifb` window field is an external
collaborator and is omitted.  `ticks` is a ghost counter, not present in
the source: it is incremented exactly once per `ppu_tick` call and by
nothing else, and counts the PPU dot ticks advanced (used to state the
clock-coupling claims). -/
structure PPU where
  oam : Nat → Nat
  secondary_oam : Nat → Nat
  ctrl : Nat
  mask : Nat
  status : Nat
  oam_addr : Nat
  oam_data : Nat
  scroll : Nat
  oam_dma : Nat
  v : Nat
  t : Nat
  x : Nat
  w : Nat
  low_pttrn_shift_reg : Nat
  high_pttrn_shift_reg : Nat
  low_attr_shift_reg : Nat
  high_attr_shift_reg : Nat
  ppu_latch : Nat
  vram_latch : Nat
  nmi : Nat
  color_buffer : Nat → Nat
  state : PpuState
  sprite_y : Nat
  sprite_tile_number : Nat
  sprite_attribute : Nat
  sprite_x : Nat
  back_pixel : Nat
  sprite_pixel_buffer : Nat → Sprite
  sprite_buffer_addr : Nat
  pixel : Nat
  oam_addr_overflow : Bool
  ticks : Nat
  ppu_bus : PPUBus

/-- `PPU::read_byte`: delegate to the PPU bus (`PPUBus::mem_read` takes
`&self`, so this is a pure read). -/
def PPU.read_byte (p : PPU) (addr : Nat) : Nat :=
  PPUBus.mem_read p.ppu_bus addr

/-- `PPU::increment_vram`: step `v` by 32 (`PPUCTRL` bit 2 set) or 1,
masked to 14 bits. -/
def PPU.increment_vram (p : PPU) : PPU :=
  if p.ctrl &&& 0x4 > 0 then
    { p with v := (p.v + 32) &&& 0x3FFF }
  else
    { p with v := (p.v + 1) &&& 0x3FFF }

/-- `PPU::cpu_write_byte`: write `data` at `v` on the PPU bus, then
increment `v`. -/
def PPU.cpu_write_byte (p : PPU) (data : Nat) : PPU :=
  let p := { p with ppu_bus := PPUBus.mem_write p.ppu_bus p.v data }
  PPU.increment_vram p

/-- `PPU::load_addr_byte`: two-write `t`/`v` load through `0x2006`
sequenced by `w` (`!0b1111_1111_0000_0000 = 0x00FF` and
`!0b1111_1111 = 0xFF00` on `u16`). -/
def PPU.load_addr_byte (p : PPU) (addr : Nat) : PPU :=
  if p.w = 0 then
    { p with t := (p.t &&& 0x00FF) ||| ((addr <<< 8) &&& 0xFF00), w := 1 }
  else
    let t := (p.t &&& 0xFF00) ||| (addr &&& 0xFF)
    { p with t := t, v := t, w := 0 }

/-- `PPU::oam_data_set`: store `oam_data` at `oam[oam_addr]`. -/
def PPU.oam_data_set (p : PPU) : PPU :=
  { p with oam := fun i => if i = p.oam_addr then p.oam_data else p.oam i }

/-- `PPU::load_scroll`: two-write scroll load through `0x2005` sequenced
by `w` (`!0b1_1111 = 0xFFE0`, `!0b11_1110_0000 = 0xFC1F`,
`!0b111_0000_0000_0000 = 0x8FFF` on `u16`). -/
def PPU.load_scroll (p : PPU) (scroll_data : Nat) : PPU :=
  if p.w = 0 then
    { p with x := scroll_data &&& 0b111,
             t := (p.t &&& 0xFFE0) ||| (scroll_data >>> 3),
             w := 1 }
  else
    let t := (p.t &&& 0xFC1F) ||| ((scroll_data <<< 2) &&& 0x3E0)
    let t := (t &&& 0x8FFF) ||| ((scroll_data <<< 12) &&& 0x7000)
    { p with t := t, w := 0 }

/-- `PPU::fetch_attribute_data`: compute the attribute-table address for
`addr`, adjust for mirroring against `v`, read the attribute byte and
select the 2-bit palette for the quadrant.  Pure (the source takes
`&mut self` but only reads). -/
def PPU.fetch_attribute_data (p : PPU) (addr : Nat) : Nat :=
  let x := (addr % 0x400) % 32
  let y := (addr % 0x400) / 32
  let attribute_addr := 0x23C0 + (x / 4) + ((y / 4) * 8)
  let attribute_addr :=
    if p.ppu_bus.mirroring = Mirroring.HORIZONTAL then
      if p.v > 0x2400 then attribute_addr + 0x400 * 2 else attribute_addr
    else if p.ppu_bus.mirroring = Mirroring.VERTICAL then
      if p.v % 0x800 > 0x400 then attribute_addr + 0x400 else attribute_addr
    else attribute_addr
  let palette_value := PPU.read_byte p attribute_addr
  match (x % 4) / 2, (y % 4) / 2 with
  | 0, 0 => palette_value &&& 0x3
  | 1, 0 => (palette_value >>> 2) &&& 0x3
  | 0, 1 => (palette_value >>> 4) &&& 0x3
  | 1, 1 => (palette_value >>> 6) &&& 0x3
  | _, _ => 0

/-- `PPU::fetch_pattern_table`: assemble the pattern-table address from
`PPUCTRL` bit 4, the high/low plane flag, the nametable byte and fine-Y,
then read it from the PPU bus. -/
def PPU.fetch_pattern_table (p : PPU) (high : Bool) (addr : Nat) : Nat :=
  let pattern_addr := if p.ctrl &&& 0x10 ≠ 0 then 0x1000 else 0
  let pattern_addr := if high then pattern_addr ||| 0b1000 else pattern_addr
  let pattern_addr := pattern_addr ||| (addr <<< 4)
  let pattern_addr := pattern_addr ||| ((p.v >>> 12) &&& 0b111)
  PPUBus.mem_read p.ppu_bus pattern_addr

/-- `PPU::load_latch`: latch the low 8 address bits. -/
def PPU.load_latch (p : PPU) (addr : Nat) : PPU :=
  { p with ppu_latch := addr &&& 0xFF }

/-- `PPU::nametable_fetch`: tile fetch at `0x2000 | (v & 0x0FFF)` where
the low byte of `v` comes from the PPU latch.  Pure. -/
def PPU.nametable_fetch (p : PPU) (addr : Nat) : Nat :=
  let v := (addr &&& 0xFF00) ||| p.ppu_latch
  let tile_addr := 0x2000 ||| (v &&& 0x0FFF)
  PPU.read_byte p tile_addr

/-- `PPU::shift`: shift all four background shift registers left by one,
feeding the attribute registers from the attribute latch (`u16` pattern
registers, `u8` attribute registers). -/
def PPU.shift (p : PPU) : PPU :=
  { p with
    low_pttrn_shift_reg := (p.low_pttrn_shift_reg <<< 1) % 65536,
    high_pttrn_shift_reg := (p.high_pttrn_shift_reg <<< 1) % 65536,
    low_attr_shift_reg := ((p.low_attr_shift_reg <<< 1) % 256) ||| (p.state.attribute_latch &&& 0b1),
    high_attr_shift_reg := ((p.high_attr_shift_reg <<< 1) % 256) ||| (p.state.attribute_latch &&& 0b10) }

/-- `PPU::shift_reload`: reload the pattern shift registers from the
fetched bitplanes and the attribute latch from the fetched attribute
data. -/
def PPU.shift_reload (p : PPU) : PPU :=
  { p with
    state := { p.state with attribute_latch := p.state.attribute_data },
    low_pttrn_shift_reg := p.state.low_bitplane,
    high_pttrn_shift_reg := p.state.high_bitplane }

/-- `PPU::continue_render`: the 8-dot background fetch pattern (latch /
nametable / latch / attribute / latch / low plane / latch / high plane
with the coarse-X increment), followed by the Y-increment and the
coarse-X reload from `t` at dot 256 (`!0b1_1111 = 0xFFE0`,
`!0b111_0000_0000_0000 = 0x8FFF`, `!0b11_1110_0000 = 0xFC1F` on `u16`). -/
def PPU.continue_render (p : PPU) : PPU :=
  let p :=
    match p.state.dots % 8 with
    | 1 => PPU.load_latch p p.v
    | 2 => { p with state := { p.state with nametable_data := PPU.nametable_fetch p p.v } }
    | 3 => PPU.load_latch p p.v
    | 4 => { p with state := { p.state with attribute_data := PPU.fetch_attribute_data p p.v } }
    | 5 => PPU.load_latch p p.v
    | 6 => { p with state := { p.state with low_bitplane := PPU.fetch_pattern_table p false p.state.nametable_data } }
    | 7 => PPU.load_latch p p.v
    | _ =>
      let p := { p with state := { p.state with high_bitplane := PPU.fetch_pattern_table p true p.state.nametable_data } }
      if p.v &&& 0x1F = 31 then
        { p with v := (p.v &&& 0xFFE0) ^^^ 0x0400 }
      else
        { p with v := p.v + 1 }
  if p.state.dots = 256 then
    let fine_y := (p.v &&& 0x7000) >>> 12
    let p :=
      if fine_y < 7 then
        { p with v := (p.v &&& 0x8FFF) ||| ((fine_y + 1) <<< 12) }
      else
        let p := { p with v := p.v &&& 0x8FFF }
        let coarse_y := (p.v &&& 0x3E0) >>> 5
        let pcy : PPU × Nat :=
          if coarse_y = 29 then ({ p with v := p.v ^^^ 0x0800 }, 0)
          else if coarse_y = 31 then (p, 0)
          else (p, coarse_y + 1)
        let p := pcy.1
        { p with v := (p.v &&& 0xFC1F) ||| (pcy.2 <<< 5) }
    let coarse_xt := p.t &&& 0x1F
    { p with v := (p.v &&& 0xFFE0) ||| coarse_xt }
  else p

/-- `PPU::sprite_evaluation_tick`: secondary-OAM clear (even dots < 64),
in-range sprite evaluation with the hardware's buggy overflow increment
(even dots 66–256), sprite-slot fetches (even dots 258–318), and the
odd-dot OAM read feeding `oam_data`. -/
def PPU.sprite_evaluation_tick (p : PPU) : PPU :=
  if p.state.dots = 0 then p
  else if p.state.dots % 2 = 0 then
    if p.state.dots < 64 then
      { p with secondary_oam := fun i => if i = p.state.secondary_oam_addr then 0xFF else p.secondary_oam i,
               state := { p.state with secondary_oam_addr := (p.state.secondary_oam_addr + 1) % 256 } }
    else if p.state.dots = 64 then
      { p with secondary_oam := fun i => if i = p.state.secondary_oam_addr then 0xFF else p.secondary_oam i,
               state := { p.state with secondary_oam_addr := 0 } }
    else if p.state.dots ≤ 256 ∧ p.state.dots > 64 ∧ ¬p.oam_addr_overflow then
      let p :=
        if p.oam_data ≤ p.state.scanline + 1 ∧ p.state.scanline + 1 < p.oam_data + SPRITE_HEIGHT ∧ ¬p.state.valid_sprite then
          { p with state := { p.state with valid_sprite := true } }
        else p
      if p.state.sprite_counter < 8 then
        if p.state.secondary_oam_addr < 32 then
          { p with secondary_oam := fun i => if i = p.state.secondary_oam_addr then p.oam_data else p.secondary_oam i,
                   state := { p.state with secondary_oam_addr := (p.state.secondary_oam_addr + 1) % 256 } }
        else
          p
      else
        let p := { p with state := { p.state with sprite_addr := 0 } }
        if p.state.valid_sprite then
          { p with status := p.status ||| 0x20,
                   oam_addr := (p.oam_addr + 1) % 256,
                   state := { p.state with sprite_addr := p.state.sprite_addr + 1 } }
        else p
    else if p.state.dots < 320 then
      let p := { p with state := { p.state with secondary_oam_addr := 0 } }
      match (p.state.dots - 1) % 8 with
      | 0 =>
        { p with sprite_y := p.secondary_oam p.state.secondary_oam_addr,
                 state := { p.state with secondary_oam_addr := (p.state.secondary_oam_addr + 1) % 256 } }
      | 1 =>
        { p with state := { p.state with nametable_data := p.secondary_oam p.state.secondary_oam_addr,
                                         secondary_oam_addr := (p.state.secondary_oam_addr + 1) % 256 } }
      | 2 =>
        { p with state := { p.state with attribute_data := p.secondary_oam p.state.secondary_oam_addr,
                                         secondary_oam_addr := (p.state.secondary_oam_addr + 1) % 256 } }
      | 3 | 4 | 5 | 6 =>
        { p with sprite_x := p.secondary_oam p.state.secondary_oam_addr }
      | _ =>
        { p with state := { p.state with secondary_oam_addr := (p.state.secondary_oam_addr + 1) % 256 } }
    else
      p
  else
    let p := if p.oam_addr = 64 then { p with oam_addr := 0, oam_addr_overflow := true } else p
    let p := if p.state.valid_sprite then { p with state := { p.state with sprite_addr := (p.state.sprite_addr + 1) % 256 } } else p
    let p := if p.state.sprite_addr = 4 then { p with state := { p.state with valid_sprite := false, sprite_counter := (p.state.sprite_counter + 1) % 256 } } else p
    let p := { p with oam_data := p.oam (4 * p.oam_addr + p.state.sprite_addr) }
    if ¬p.state.valid_sprite then
      { p with oam_addr := (p.oam_addr + 1) % 256, state := { p.state with sprite_addr := 0 } }
    else p

/-- The loop of `PPU::compare_against_sprites` over the 64 entries of
`sprite_pixel_buffer` in index order: `some px` models the early
`return` with `self.pixel = px`, `none` models falling out of the loop. -/
def PPU.compare_scan (buf : Nat → Sprite) (dotsByte back : Nat) : List Nat → Option Nat
  | [] => none
  | i :: rest =>
    let s := buf i
    if s.x_coordinate = dotsByte then
      if s.pixel &&& 0b11 ≠ 0 then
        if s.priority = 0 then some (s.pixel &&& 0x10)
        else PPU.compare_scan buf dotsByte back rest
      else if back &&& 0b11 = 0 then some s.pixel
      else PPU.compare_scan buf dotsByte back rest
    else PPU.compare_scan buf dotsByte back rest

/-- `PPU::compare_against_sprites`: multiplex the background pixel with
the sprite slots (`self.state.dots as u8` truncates to a byte). -/
def PPU.compare_against_sprites (p : PPU) : PPU :=
  match PPU.compare_scan p.sprite_pixel_buffer (p.state.dots % 256) p.back_pixel (List.range 64) with
  | some px => { p with pixel := px }
  | none => { p with pixel := p.back_pixel }

/-- `PPU::fetch_rgb`: look up the RGB triplet for the current pixel via
the PPU bus palette read. -/
def PPU.fetch_rgb (p : PPU) : Nat × Nat × Nat :=
  let palette_addr := PPUBus.mem_read p.ppu_bus (PALETTE_RAM_BEGIN + p.pixel)
  (p.ppu_bus.palette_storage (palette_addr * 3),
   p.ppu_bus.palette_storage (palette_addr * 3 + 1),
   p.ppu_bus.palette_storage (palette_addr * 3 + 2))

/-- The 4-bit background pixel assembled from the shift registers and
fine-X (the expression appearing twice inside `PPU::ppu_tick`).  `15 -
self.x` / `7 - self.x` are the source's `u8` subtractions (fine-X is at
most 7 in every state the source produces). -/
def PPU.assemble_pixel (p : PPU) : Nat :=
  ((p.low_pttrn_shift_reg >>> (15 - p.x)) &&& 0x1)
  ||| (((p.high_pttrn_shift_reg >>> (15 - p.x)) &&& 0x1) <<< 1)
  ||| (((p.low_attr_shift_reg >>> (7 - p.x)) &&& 0x1) <<< 2)
  ||| (((p.high_attr_shift_reg >>> (7 - p.x)) &&& 0x1) <<< 3)

/-- Body of the visible-scanline branch of `PPU::ppu_tick`
(the `if self.state.dots <= 256 / <= 320 / <= 336 / <= 341` chain);
`Except.error` models the `return` statements, `Except.ok` falls
through to the rest of `ppu_tick`. -/
def PPU.visible_body (p : PPU) : Except PPU PPU :=
  if p.state.dots ≤ 256 then
    let p := PPU.continue_render p
    let p := PPU.sprite_evaluation_tick p
    let p := if p.state.dots > 8 ∧ (p.state.dots - 1) % 8 = 0 then PPU.shift_reload p else p
    let p := { p with back_pixel := PPU.assemble_pixel p }
    let p := if p.state.scanline > 0 then PPU.compare_against_sprites p else { p with pixel := p.back_pixel }
    let rgb := PPU.fetch_rgb p
    let rgb_value := (rgb.1 <<< 16) ||| (rgb.2.1 <<< 8) ||| rgb.2.2
    let index := p.state.scanline * 256 + p.state.dots
    let p :=
      if index < SCREEN_WIDTH * SCREEN_HEIGHT then
        { p with color_buffer := fun i => if i = index then rgb_value else p.color_buffer i }
      else p
    Except.ok (PPU.shift p)
  else if p.state.dots ≤ 320 then
    let p := PPU.sprite_evaluation_tick p
    let p := PPU.continue_render p
    let p := if p.state.dots > 8 ∧ p.state.dots % 8 = 1 then PPU.shift_reload p else p
    let spr : Sprite :=
      { x_coordinate := (p.sprite_x + p.x) % 256,
        pixel := PPU.assemble_pixel p,
        priority := if p.state.attribute_data &&& 0x20 > 0 then 1 else 0,
        horizontal_flip := if p.state.attribute_data &&& 0x40 > 0 then 1 else 0,
        vertical_flip := if p.state.attribute_data &&& 0x40 > 0 then 1 else 0 }
    let p := { p with sprite_pixel_buffer := fun i => if i = p.sprite_buffer_addr then spr else p.sprite_pixel_buffer i }
    Except.ok { p with sprite_buffer_addr := (p.sprite_buffer_addr + 1) % 256 }
  else if p.state.dots ≤ 336 then
    let p := PPU.continue_render p
    let p := if p.state.dots = 329 then PPU.shift_reload p else p
    Except.ok (PPU.shift p)
  else if p.state.dots ≤ 341 then
    -- `self.read_byte(self.v)` here is a pure PPU-bus read: no state change
    if p.state.dots = 341 then
      Except.error { p with state := { p.state with dots := 0, scanline := p.state.scanline + 1 },
                            sprite_buffer_addr := 0 }
    else Except.ok p
  else Except.ok p

/-- Visible-scanline block of `PPU::ppu_tick` including the even-frame
skip of dot 0 on scanline 0 (the skip branch continues into the dot-1
work; the non-skip branch with `dots == 0 && scanline == 0` returns). -/
def PPU.visible_block (p : PPU) : Except PPU PPU :=
  if p.state.scanline < 240 then
    if p.state.even_odd_frame ∧ p.state.dots = 0 ∧ p.state.scanline = 0 then
      PPU.visible_body { p with state := { p.state with dots := p.state.dots + 1 } }
    else if p.state.dots = 0 ∧ p.state.scanline = 0 then
      Except.error { p with state := { p.state with dots := p.state.dots + 1 } }
    else
      PPU.visible_body p
  else Except.ok p

/-- Scanline-240 (post-render idle) block of `PPU::ppu_tick`. -/
def PPU.block240 (p : PPU) : Except PPU PPU :=
  if p.state.scanline = 240 then
    if p.state.dots = 341 then
      Except.error { p with state := { p.state with scanline := p.state.scanline + 1, dots := 0 } }
    else Except.ok p
  else Except.ok p

/-- Scanline-241 (VBlank entry) block of `PPU::ppu_tick`: set status bit
7, clear the OAM-address overflow marker, raise the NMI flag when
`PPUCTRL` bit 7 allows it, and at dot 341 present the frame
(`window.update_with_buffer`, an external IO call that changes no
emulator state) and clear the framebuffer in place. -/
def PPU.block241 (p : PPU) : Except PPU PPU :=
  if p.state.scanline = 241 then
    let p := { p with status := p.status ||| 0x80, oam_addr_overflow := false }
    let p :=
      if p.ctrl &&& 0x80 > 0 ∧ p.state.dots ≥ 1 then
        { p with nmi := 1, ctrl := p.ctrl &&& 0x7F,
                 state := { p.state with even_odd_frame := !p.state.even_odd_frame } }
      else p
    if p.state.dots = 341 then
      Except.error { p with state := { p.state with scanline := p.state.scanline + 1, dots := 0 },
                            color_buffer := fun i => if i < SCREEN_WIDTH * SCREEN_HEIGHT then 0 else p.color_buffer i }
    else Except.ok p
  else Except.ok p

/-- The block of `PPU::ppu_tick` for scanlines 241–260 (it also runs a
second time on scanline 241 right after `block241`, matching the
source's sequential `if` statements). -/
def PPU.vblank_block (p : PPU) : Except PPU PPU :=
  if p.state.scanline < 261 ∧ p.state.scanline ≥ 241 then
    let p :=
      if p.ctrl &&& 0x80 > 0 ∧ p.state.dots ≥ 1 then
        { p with nmi := 1, ctrl := p.ctrl &&& 0x7F }
      else p
    if p.state.dots = 341 then
      Except.error { p with state := { p.state with scanline := p.state.scanline + 1, dots := 0 } }
    else Except.ok p
  else Except.ok p

/-- Pre-render scanline (261) block of `PPU::ppu_tick`: clear the three
status flags at dot 1, fetch the first two tiles of the next frame, and
at dot 341 reset the frame (`status &= !0x20; status &= !0x40`, that is
`&&& 0xDF` then `&&& 0xBF`, and `w` cleared). -/
def PPU.block261 (p : PPU) : Except PPU PPU :=
  if p.state.scanline = 261 then
    let p := if p.state.dots = 1 then { p with status := p.status &&& 0x1F } else p
    let p :=
      if p.state.dots ≤ 336 then
        let p := PPU.continue_render p
        let p := if p.state.dots = 329 then PPU.shift_reload p else p
        -- `if dots < 340 && even_odd_frame { self.read_byte(self.v) }`: pure read, no state change
        PPU.shift p
      else p
    if p.state.dots = 341 then
      Except.error { p with state := { p.state with even_odd_frame := !p.state.even_odd_frame, dots := 0, scanline := 0 },
                            status := (p.status &&& 0xDF) &&& 0xBF,
                            w := 0 }
    else Except.ok p
  else Except.ok p

/-- `PPU::ppu_tick`: one PPU dot.  The ghost `ticks` counter is bumped,
then the source's sequence of scanline blocks runs with `Except.error`
modelling its early `return`s; when control falls off the end,
`self.state.dots += 1`. -/
def PPU.ppu_tick (p : PPU) : PPU :=
  let p := { p with ticks := p.ticks + 1 }
  match PPU.visible_block p with
  | Except.error q => q
  | Except.ok p =>
  match PPU.block240 p with
  | Except.error q => q
  | Except.ok p =>
  match PPU.block241 p with
  | Except.error q => q
  | Except.ok p =>
  match PPU.vblank_block p with
  | Except.error q => q
  | Except.ok p =>
  match PPU.block261 p with
  | Except.error q => q
  | Except.ok p => { p with state := { p.state with dots := p.state.dots + 1 } }

/-- CPU-side bus (`struct CPUBus`).  `cpu_ram` is the 65536-byte backing
array (only `addr & 0x07FF` is ever touched through the RAM arms);
`prg_rom` keeps its length, which the PRG mirroring and the reset-vector
fetch inspect. -/
structure CPUBus where
  cpu_ram : Nat → Nat
  prg_rom : List Nat
  halt_flag : Bool
  ppu : PPU
  open_bus : Nat
  ppu_latch : Nat

/-- `CPUBus::read_prg_rom`: subtract the `0x8000` base (`u16`
arithmetic, modelled mod `2^16`) and mirror a 16 KiB PRG image.  The
Rust `Vec` index panics out of range; none of the claims exercises that
case and the read is totalised with default 0. -/
def CPUBus.read_prg_rom (bus : CPUBus) (addr : Nat) : Nat :=
  let mirrored_addr := (addr + 0x10000 - 0x8000) % 0x10000
  let mirrored_addr :=
    if bus.prg_rom.length = 0x4000 ∧ mirrored_addr ≥ 0x4000 then mirrored_addr % 0x4000
    else mirrored_addr
  bus.prg_rom.getD mirrored_addr 0

/-- `<CPUBus as Mem>::mem_read`: mirrored RAM, the PPU register
dispatch on `addr & 0x2007` (PPUSTATUS clears `w` and loads the CPU-side
latch; OAMDATA reads OAM; PPUDATA performs the buffered read and
increments `v`; every other register returns the latch), the APU stub,
PRG ROM, and open bus. -/
def CPUBus.mem_read (bus : CPUBus) (addr : Nat) : Nat × CPUBus :=
  if addr ≤ 0x1FFF then
    (bus.cpu_ram (addr &&& 0x07FF), bus)
  else if addr ≤ 0x3FFF then
    let mirrored_addr := addr &&& 0x2007
    if mirrored_addr = 0x2002 then
      (bus.ppu.status, { bus with ppu := { bus.ppu with w := 0 }, ppu_latch := bus.ppu.status })
    else if mirrored_addr = 0x2004 then
      let return_value := bus.ppu.oam bus.ppu.oam_addr
      (return_value, { bus with ppu_latch := return_value })
    else if mirrored_addr = 0x2007 then
      if bus.ppu.v ≤ 0x3FFF ∧ bus.ppu.v ≥ 0x3F00 then
        let return_value := PPU.read_byte bus.ppu bus.ppu.v
        let ppu := { bus.ppu with vram_latch := PPU.read_byte bus.ppu (bus.ppu.v % 0x2000) }
        (return_value, { bus with ppu := PPU.increment_vram ppu })
      else
        let return_value := bus.ppu.vram_latch
        let ppu := { bus.ppu with vram_latch := PPU.read_byte bus.ppu bus.ppu.v }
        (return_value, { bus with ppu := PPU.increment_vram ppu })
    else
      (bus.ppu_latch, bus)
  else if addr ≤ 0x4017 then
    (0, bus)
  else if 0x8000 ≤ addr ∧ addr ≤ 0xFFFF then
    (CPUBus.read_prg_rom bus addr, bus)
  else
    (bus.open_bus % 256, bus)

/-- `<CPUBus as Mem>::mem_read_u16` (takes `&self`: a pure read; note
the PPU-register arm returns the latch and no arm ticks the PPU). -/
def CPUBus.mem_read_u16 (bus : CPUBus) (addr : Nat) : Nat :=
  if addr ≤ 0x1FFF then
    let unmirrored_addr := addr &&& 0x07FF
    ((bus.cpu_ram (unmirrored_addr + 1)) <<< 8) ||| bus.cpu_ram unmirrored_addr
  else if addr ≤ 0x3FFF then
    bus.ppu_latch
  else if addr ≤ 0x4017 then
    0
  else if 0x8000 ≤ addr ∧ addr ≤ 0xFFFF then
    ((CPUBus.read_prg_rom bus ((addr + 1) % 0x10000)) <<< 8) ||| CPUBus.read_prg_rom bus addr
  else
    bus.open_bus

/-- `<CPUBus as Mem>::mem_write`: mirrored RAM, the PPU register
dispatch on `addr & 0x2007` (including the source's OAM-DMA arm for
`0x4014`, kept verbatim even though `addr & 0x2007` can never equal
`0x4014`), the APU stub, and open bus for everything else. -/
def CPUBus.mem_write (bus : CPUBus) (addr data : Nat) : CPUBus :=
  if addr ≤ 0x1FFF then
    { bus with cpu_ram := fun i => if i = (addr &&& 0x07FF) then data else bus.cpu_ram i }
  else if addr ≤ 0x3FFF then
    let mirrored_addr := addr &&& 0x2007
    if mirrored_addr = 0x2000 then
      { bus with ppu := { bus.ppu with ctrl := data }, ppu_latch := data }
    else if mirrored_addr = 0x2001 then
      { bus with ppu := { bus.ppu with mask := data }, ppu_latch := data }
    else if mirrored_addr = 0x2002 then
      { bus with ppu_latch := data }
    else if mirrored_addr = 0x2003 then
      { bus with ppu := { bus.ppu with oam_addr := data }, ppu_latch := data }
    else if mirrored_addr = 0x2004 then
      let ppu := { bus.ppu with oam_data := data }
      let ppu := PPU.oam_data_set ppu
      let ppu := { ppu with oam_addr := (ppu.oam_addr + 1) % 256 }
      { bus with ppu := ppu, ppu_latch := data }
    else if mirrored_addr = 0x2005 then
      { bus with ppu := PPU.load_scroll bus.ppu data, ppu_latch := data }
    else if mirrored_addr = 0x2006 then
      { bus with ppu := PPU.load_addr_byte bus.ppu data, ppu_latch := data }
    else if mirrored_addr = 0x2007 then
      { bus with ppu := PPU.cpu_write_byte bus.ppu data, ppu_latch := data }
    else if mirrored_addr = 0x4014 then
      { bus with ppu := { bus.ppu with oam_data := data }, halt_flag := true, ppu_latch := data }
    else
      { bus with ppu_latch := data }
  else if addr ≤ 0x4017 then
    bus
  else
    { bus with open_bus := data }

/-- The CPU (`struct CPU`). -/
structure CPU where
  cpu_clk : Nat
  accumulator : Nat
  x : Nat
  y : Nat
  pc : Nat
  sp : Nat
  status : Nat
  cpu_bus : CPUBus

/-- The three PPU dot ticks performed by `CPU::read_byte` and
`CPU::write_byte` (`for _ in 0..=2 { self.cpu_bus.ppu.ppu_tick(); }`). -/
def CPU.tick3 (c : CPU) : CPU :=
  { c with cpu_bus := { c.cpu_bus with ppu := PPU.ppu_tick (PPU.ppu_tick (PPU.ppu_tick c.cpu_bus.ppu)) } }

/-- The part of `CPU::read_byte` after the DMA-halt prologue and before
the NMI sample: count the cycle, read the bus, tick the PPU three
times. -/
def CPU.read_pre (c : CPU) (address : Nat) : Nat × CPU :=
  let c := { c with cpu_clk := c.cpu_clk + 1 }
  let r := CPUBus.mem_read c.cpu_bus address
  let c := { c with cpu_bus := r.2 }
  (r.1, CPU.tick3 c)

/-- `CPU::read_byte` minus the DMA-halt prologue, parameterised by the
NMI sampler (see `CPU.nmiAt`). -/
def CPU.read_byte_core (nmiFn : CPU → CPU) (c : CPU) (address : Nat) : Nat × CPU :=
  let r := CPU.read_pre c address
  (r.1, nmiFn r.2)

/-- `CPU::write_byte` before its NMI sample: count the cycle, write the
bus, tick the PPU three times. -/
def CPU.write_pre (c : CPU) (address data : Nat) : CPU :=
  let c := { c with cpu_clk := c.cpu_clk + 1 }
  let c := { c with cpu_bus := CPUBus.mem_write c.cpu_bus address data }
  CPU.tick3 c

/-- `CPU::write_byte`: count the cycle, write, tick the PPU three
times, sample NMI. -/
def CPU.write_byte (nmiFn : CPU → CPU) (c : CPU) (address data : Nat) : CPU :=
  nmiFn (CPU.write_pre c address data)

/-- `CPU::write_oam`: a bus write to `0x2004` with no clock tick and no
PPU tick (the CPU is halted during DMA). -/
def CPU.write_oam (c : CPU) (data : Nat) : CPU :=
  { c with cpu_bus := CPUBus.mem_write c.cpu_bus 0x2004 data }

/-- The `for addr in start_addr..=end_addr` loop of
`CPU::execute_oam_dma`: 256 iterations of a CPU read followed by
`write_oam`.  The source's loop calls `CPU::read_byte`; the halt flag
is false throughout the loop (it was cleared before the DMA started,
and neither `mem_read` nor `write_oam` can set it), so each iteration
is `read_byte_core`. -/
def CPU.dma_loop (nmiFn : CPU → CPU) (c : CPU) (addr : Nat) : Nat → CPU
  | 0 => c
  | n + 1 =>
    let r := CPU.read_byte_core nmiFn c addr
    let c := CPU.write_oam r.2 r.1
    CPU.dma_loop nmiFn c (addr + 1) n

/-- `CPU::execute_oam_dma`: copy the 256 bytes of CPU page
`start_addr_high` into OAM through writes to `0x2004`. -/
def CPU.execute_oam_dma (nmiFn : CPU → CPU) (c : CPU) (start_addr_high : Nat) : CPU :=
  let start_addr := (start_addr_high <<< 8) % 0x10000
  CPU.dma_loop nmiFn c start_addr 256

/-- `CPU::read_byte`: when the DMA-halt flag is set, clear it and run
the OAM DMA for page `ppu.oam_dma` first; then count the cycle, read
the bus, tick the PPU three times and sample NMI. -/
def CPU.read_byte (nmiFn : CPU → CPU) (c : CPU) (address : Nat) : Nat × CPU :=
  if c.cpu_bus.halt_flag then
    let c := { c with cpu_bus := { c.cpu_bus with halt_flag := false } }
    let c := CPU.execute_oam_dma nmiFn c c.cpu_bus.ppu.oam_dma
    CPU.read_byte_core nmiFn c address
  else
    CPU.read_byte_core nmiFn c address

/-- `CPU::fetch_byte`: read at `pc`, then `pc += 1` (wrapping). -/
def CPU.fetch_byte (nmiFn : CPU → CPU) (c : CPU) : Nat × CPU :=
  let r := CPU.read_byte nmiFn c c.pc
  (r.1, { r.2 with pc := (r.2.pc + 1) % 0x10000 })

/-- `CPU::fetch_word`: a direct `mem_read_u16` of the 16-bit operand at
`pc` (no PPU tick, no cycle count, no NMI sample), then `pc += 2`
(wrapping). -/
def CPU.fetch_word (c : CPU) : Nat × CPU :=
  let word := CPUBus.mem_read_u16 c.cpu_bus c.pc
  (word, { c with pc := (c.pc + 2) % 0x10000 })

/-- `CPU::push_stack`: write at `0x100 + sp`, then decrement `sp`
(wrapping; `sp - 1` mod 256 is `sp + 255` mod 256). -/
def CPU.push_stack (nmiFn : CPU → CPU) (c : CPU) (data : Nat) : CPU :=
  let c := CPU.write_byte nmiFn c (c.sp + STACK_BASE) data
  { c with sp := (c.sp + 255) % 256 }

/-- `CPU::pop_stack`: increment `sp` (wrapping), then read at
`0x100 + sp`. -/
def CPU.pop_stack (nmiFn : CPU → CPU) (c : CPU) : Nat × CPU :=
  let c := { c with sp := (c.sp + 1) % 256 }
  CPU.read_byte nmiFn c (c.sp + STACK_BASE)

/-- Body of `CPU::nmi`: when the PPU's NMI flag is 1, clear it, consume
the padding byte, push `PCH`, `PCL` and `P`, load the vector at
`0xFFFA/0xFFFB` and set the interrupt-disable flag.  The accesses of
the entry sequence themselves sample NMI through `nmiFn` (one depth
lower, see `CPU.nmiAt`). -/
def CPU.nmi_body (nmiFn : CPU → CPU) (c : CPU) : CPU :=
  if c.cpu_bus.ppu.nmi = 1 then
    let c := { c with cpu_bus := { c.cpu_bus with ppu := { c.cpu_bus.ppu with nmi := 0 } } }
    let r := CPU.fetch_byte nmiFn c
    let c := r.2
    let low_pc := c.pc &&& 0x00FF
    let high_pc := (c.pc &&& 0xFF00) >>> 8
    let c := CPU.push_stack nmiFn c high_pc
    let c := CPU.push_stack nmiFn c low_pc
    let c := CPU.push_stack nmiFn c c.status
    let r1 := CPU.read_byte nmiFn c 0xFFFA
    let r2 := CPU.read_byte nmiFn r1.2 0xFFFB
    let c := r2.2
    let c := { c with pc := (r2.1 <<< 8) ||| r1.1 }
    { c with status := c.status ||| 0b100 }
  else c

/-- `CPU::nmi` stratified by sampling depth: the source samples NMI
after every access, including the accesses inside the NMI entry
sequence itself.  At depth 0 the sample does nothing; all theorems
below hold at every depth. -/
def CPU.nmiAt : Nat → CPU → CPU
  | 0 => fun c => c
  | fuel + 1 => CPU.nmi_body (CPU.nmiAt fuel)

/-- `CPU::set_zero_neg`: bit 1 is the zero flag, bit 7 the negative
flag (`!0x2 = 0xFD` and `!0x80 = 0x7F` on `u8`). -/
def CPU.set_zero_neg (status check : Nat) : Nat :=
  let status := if check = 0 then status ||| 0x2 else status &&& 0xFD
  if check &&& 0x80 ≠ 0 then status ||| 0x80 else status &&& 0x7F

/-- The ADC arm of `CPU::decode` (`(3, bbb, 1)`) acting on the
accumulator, the status byte and the fetched operand: `result = A + M +
C` in `u16`, carry from `result > 255`, `A = result as u8`,
zero/negative flags from the new accumulator, then signed overflow into
bit 6 (`!0x01 = 0xFE`, `!0x40 = 0xBF` on `u8`).  Returns the new
accumulator and status byte. -/
def CPU.adc_step (accumulator status operand : Nat) : Nat × Nat :=
  let carry_bit := status &&& 0x1
  let previous := accumulator
  let result := accumulator + operand + carry_bit
  let status := if result > 255 then status ||| 0x1 else status &&& 0xFE
  let accumulator := result % 256
  let status := CPU.set_zero_neg status accumulator
  let prev_sign := previous &&& 0x80
  let op_sign := operand &&& 0x80
  let res_sign := accumulator &&& 0x80
  let status := if prev_sign = op_sign ∧ prev_sign ≠ res_sign then status ||| 0x40 else status &&& 0xBF
  (accumulator, status)

/-- Register initialisation of `CPU::init_cpu`: `(pc, sp, status)`.
The source indexes `prg_rom[0xFFFC % 0x8000]` and
`prg_rom[0xFFFD % 0x8000]` with the panicking `Vec` index; the panic is
modelled as `none` when an index is out of bounds.  `SP = 0xFD`,
`P = 0b0010_0100 = 0x24`. -/
def CPU.init_cpu (prg_rom : List Nat) : Option (Nat × Nat × Nat) :=
  if 0xFFFC % 0x8000 < prg_rom.length ∧ 0xFFFD % 0x8000 < prg_rom.length then
    some (((prg_rom.getD (0xFFFD % 0x8000) 0) <<< 8) ||| prg_rom.getD (0xFFFC % 0x8000) 0,
          0xFD, 0x24)
  else none

/-- The three distinct panic payloads of the `CPU::decode` dispatch:
`unsupported` stands for the message `Opcode not supported!`,
`unsupportedNoBang` for `Opcode not supported` (the defaults of the STA
and STX arms), and `unimplemented` for `Opcode not implemented!`.  None
of the three carries the opcode byte or the program counter — every
panic site passes a constant string with no format arguments. -/
inductive DecodeError where
  | unsupported
  | unsupportedNoBang
  | unimplemented
deriving DecidableEq, Repr

/-- The dispatch structure of `CPU::decode`: the opcode byte is split
into `aaa` (bits 7–5), `bbb` (bits 4–2) and `cc` (bits 1–0), and the
source's `match (aaa, bbb, cc)` decides — in the source's arm order —
whether an instruction implementation runs (`ok`) or a `panic!` arm is
reached (`error`, with the arm's exact message).  The instruction
bodies themselves are elided: this function decides acceptance only. -/
def CPU.decode_dispatch (instruction : Nat) : Except DecodeError Unit :=
  let aaa := (instruction >>> 5) &&& 0b111
  let bbb := (instruction >>> 2) &&& 0b111
  let cc := instruction &&& 0b11
  match aaa, bbb, cc with
  | 0, 0, 0 => Except.ok ()      -- BRK
  | 0, 2, 0 => Except.ok ()      -- PHP
  | 0, 6, 0 => Except.ok ()      -- CLC
  | 1, 2, 0 => Except.ok ()      -- PLP
  | 1, 6, 0 => Except.ok ()      -- SEC
  | 2, 0, 0 => Except.ok ()      -- RTI
  | 2, 2, 0 => Except.ok ()      -- PHA
  | 2, 6, 0 => Except.ok ()      -- CLI
  | 3, 0, 0 => Except.ok ()      -- RTS
  | 3, 2, 0 => Except.ok ()      -- PLA
  | 3, 6, 0 => Except.ok ()      -- SEI
  | 4, 2, 0 => Except.ok ()      -- DEY
  | 4, 6, 0 => Except.ok ()      -- TYA
  | 4, 2, 2 => Except.ok ()      -- TXA
  | 4, 6, 2 => Except.ok ()      -- TXS
  | 5, 2, 0 => Except.ok ()      -- TAY
  | 5, 6, 0 => Except.ok ()      -- CLV
  | 5, 2, 2 => Except.ok ()      -- TAX
  | 5, 6, 2 => Except.ok ()      -- TSX
  | 6, 2, 0 => Except.ok ()      -- INY
  | 6, 2, 2 => Except.ok ()      -- DEX
  | 6, 6, 0 => Except.ok ()      -- CLD
  | 7, 2, 0 => Except.ok ()      -- INX
  | 7, 2, 2 => Except.ok ()      -- NOP
  | 7, 6, 0 => Except.ok ()      -- SED
  | 0, _, 0 => Except.ok ()      -- BPL (every remaining bbb)
  | 0, _, 1 => Except.ok ()      -- ORA
  | 0, 1, 2 | 0, 2, 2 | 0, 3, 2 | 0, 5, 2 | 0, 7, 2 => Except.ok ()  -- ASL modes
  | 0, _, _ => Except.error DecodeError.unsupported
  | 1, 0, 0 => Except.ok ()      -- JSR
  | 1, 1, 0 | 1, 3, 0 => Except.ok ()  -- BIT
  | 1, 4, 0 => Except.ok ()      -- BMI
  | 1, _, 0 => Except.error DecodeError.unsupported
  | 1, _, 1 => Except.ok ()      -- AND
  | 1, 1, 2 | 1, 2, 2 | 1, 3, 2 | 1, 5, 2 | 1, 7, 2 => Except.ok ()  -- ROL modes
  | 1, _, _ => Except.error DecodeError.unsupported
  | 2, 3, 0 => Except.ok ()      -- JMP absolute
  | 2, 4, 0 => Except.ok ()      -- BVC
  | 2, _, 0 => Except.error DecodeError.unsupported
  | 2, _, 1 => Except.ok ()      -- EOR
  | 2, 1, 2 | 2, 2, 2 | 2, 3, 2 | 2, 5, 2 | 2, 7, 2 => Except.ok ()  -- LSR modes
  | 2, _, _ => Except.error DecodeError.unsupported
  | 3, 3, 0 => Except.ok ()      -- JMP indirect
  | 3, 4, 0 => Except.ok ()      -- BVS
  | 3, _, 0 => Except.error DecodeError.unsupported
  | 3, _, 1 => Except.ok ()      -- ADC
  | 3, 1, 2 | 3, 2, 2 | 3, 3, 2 | 3, 5, 2 | 3, 7, 2 => Except.ok ()  -- ROR modes
  | 3, _, 2 => Except.error DecodeError.unsupported
  | 3, _, _ => Except.error DecodeError.unimplemented
  | 4, 1, 0 | 4, 3, 0 | 4, 5, 0 => Except.ok ()  -- STY modes
  | 4, 4, 0 => Except.ok ()      -- BCC
  | 4, _, 0 => Except.error DecodeError.unsupported
  | 4, 0, 1 | 4, 1, 1 | 4, 3, 1 | 4, 4, 1 | 4, 5, 1 | 4, 6, 1 | 4, 7, 1 => Except.ok ()  -- STA modes
  | 4, _, 1 => Except.error DecodeError.unsupportedNoBang
  | 4, 1, 2 | 4, 3, 2 | 4, 5, 2 => Except.ok ()  -- STX modes
  | 4, _, 2 => Except.error DecodeError.unsupportedNoBang
  | 4, _, _ => Except.error DecodeError.unsupported
  | 5, 0, 0 | 5, 1, 0 | 5, 3, 0 | 5, 5, 0 | 5, 7, 0 => Except.ok ()  -- LDY modes
  | 5, 4, 0 => Except.ok ()      -- BCS
  | 5, _, 0 => Except.error DecodeError.unsupported
  | 5, _, 1 => Except.ok ()      -- LDA
  | 5, 0, 2 | 5, 1, 2 | 5, 3, 2 | 5, 5, 2 | 5, 7, 2 => Except.ok ()  -- LDX modes
  | 5, _, _ => Except.error DecodeError.unsupported
  | 6, 0, 0 | 6, 1, 0 | 6, 3, 0 => Except.ok ()  -- CPY modes
  | 6, 4, 0 => Except.ok ()      -- BNE
  | 6, _, 0 => Except.error DecodeError.unsupported
  | 6, _, 1 => Except.ok ()      -- CMP
  | 6, 1, 2 | 6, 3, 2 | 6, 5, 2 | 6, 7, 2 => Except.ok ()  -- DEC modes
  | 6, _, _ => Except.error DecodeError.unsupported
  | 7, 0, 0 | 7, 1, 0 | 7, 3, 0 => Except.ok ()  -- CPX modes
  | 7, 4, 0 => Except.ok ()      -- BEQ
  | 7, _, 0 => Except.error DecodeError.unimplemented
  | 7, _, 1 => Except.ok ()      -- SBC
  | 7, 1, 2 | 7, 3, 2 | 7, 5, 2 | 7, 7, 2 => Except.ok ()  -- INC modes
  | 7, _, 2 => Except.error DecodeError.unsupported
  | 7, _, _ => Except.error DecodeError.unimplemented
  | _, _, _ => Except.error DecodeError.unsupported

/-- Whether `CPU::decode` reaches an instruction implementation for the
opcode, rather than a `panic!` arm of the dispatch. -/
def CPU.decode_accepts (instruction : Nat) : Bool :=
  match CPU.decode_dispatch instruction with
  | Except.ok _ => true
  | Except.error _ => false

/-- The 151 documented 6502 opcodes, grouped by instruction. -/
def documented_opcodes : List Nat :=
  [0x00,                                                   -- BRK
   0x01, 0x05, 0x09, 0x0D, 0x11, 0x15, 0x19, 0x1D,         -- ORA
   0x06, 0x0A, 0x0E, 0x16, 0x1E,                           -- ASL
   0x08, 0x10, 0x18,                                       -- PHP BPL CLC
   0x20,                                                   -- JSR
   0x21, 0x25, 0x29, 0x2D, 0x31, 0x35, 0x39, 0x3D,         -- AND
   0x24, 0x2C,                                             -- BIT
   0x26, 0x2A, 0x2E, 0x36, 0x3E,                           -- ROL
   0x28, 0x30, 0x38,                                       -- PLP BMI SEC
   0x40,                                                   -- RTI
   0x41, 0x45, 0x49, 0x4D, 0x51, 0x55, 0x59, 0x5D,         -- EOR
   0x46, 0x4A, 0x4E, 0x56, 0x5E,                           -- LSR
   0x48, 0x4C, 0x50, 0x58,                                 -- PHA JMP BVC CLI
   0x60,                                                   -- RTS
   0x61, 0x65, 0x69, 0x6D, 0x71, 0x75, 0x79, 0x7D,         -- ADC
   0x66, 0x6A, 0x6E, 0x76, 0x7E,                           -- ROR
   0x68, 0x6C, 0x70, 0x78,                                 -- PLA JMP-ind BVS SEI
   0x81, 0x85, 0x8D, 0x91, 0x95, 0x99, 0x9D,               -- STA
   0x84, 0x8C, 0x94,                                       -- STY
   0x86, 0x8E, 0x96,                                       -- STX
   0x88, 0x8A, 0x90, 0x98, 0x9A,               -- DEY TXA BCC TYA TXS
   0xA1, 0xA5, 0xA9, 0xAD, 0xB1, 0xB5, 0xB9, 0xBD,         -- LDA
   0xA2, 0xA6, 0xAE, 0xB6, 0xBE,                           -- LDX
   0xA0, 0xA4, 0xAC, 0xB4, 0xBC,                           -- LDY
   0xA8, 0xAA, 0xB0, 0xB8, 0xBA,               -- TAY TAX BCS CLV TSX
   0xC1, 0xC5, 0xC9, 0xCD, 0xD1, 0xD5, 0xD9, 0xDD,         -- CMP
   0xC0, 0xC4, 0xCC,                                       -- CPY
   0xC6, 0xCE, 0xD6, 0xDE,                                 -- DEC
   0xC8, 0xCA, 0xD0, 0xD8,                     -- INY DEX BNE CLD
   0xE1, 0xE5, 0xE9, 0xED, 0xF1, 0xF5, 0xF9, 0xFD,         -- SBC
   0xE0, 0xE4, 0xEC,                                       -- CPX
   0xE6, 0xEE, 0xF6, 0xFE,                                 -- INC
   0xE8, 0xEA, 0xF0, 0xF8]                     -- INX NOP BEQ SED

/-- `PPU::init_ppu` (minus the window collaborator): all registers and
memories zeroed, frame parity `even_odd_frame = true`, fresh `PPUBus`. -/
def PPU.init_ppu (chr_rom : Nat → Nat) (mirroring : Mirroring) (palette_storage : Nat → Nat) : PPU :=
  { oam := fun _ => 0, secondary_oam := fun _ => 0, ctrl := 0, mask := 0, status := 0,
    oam_addr := 0, oam_data := 0, scroll := 0, oam_dma := 0, v := 0, t := 0, x := 0, w := 0,
    low_pttrn_shift_reg := 0, high_pttrn_shift_reg := 0, low_attr_shift_reg := 0,
    high_attr_shift_reg := 0, ppu_latch := 0, vram_latch := 0, nmi := 0,
    color_buffer := fun _ => 0,
    state := { nametable_data := 0, attribute_data := 0, low_bitplane := 0, high_bitplane := 0,
               attribute_latch := 0, scanline := 0, dots := 0, sprite_counter := 0,
               valid_sprite := false, secondary_oam_addr := 0, sprite_addr := 0,
               even_odd_frame := true },
    sprite_y := 0, sprite_tile_number := 0, sprite_attribute := 0, sprite_x := 0,
    back_pixel := 0,
    sprite_pixel_buffer := fun _ =>
      { x_coordinate := 0, pixel := 0, priority := 0, horizontal_flip := 0, vertical_flip := 0 },
    sprite_buffer_addr := 0, pixel := 0, oam_addr_overflow := false, ticks := 0,
    ppu_bus := { chr_rom := chr_rom, vram := fun _ => 0, mirroring := mirroring,
                 palette_mem := fun _ => 0, palette_storage := palette_storage } }

/-- `CPUBus::new`: zeroed RAM and latches, halt flag clear. -/
def CPUBus.new (prg_rom : List Nat) (ppu_connection : PPU) : CPUBus :=
  { cpu_ram := fun _ => 0, prg_rom := prg_rom, halt_flag := false, ppu := ppu_connection,
    open_bus := 0, ppu_latch := 0 }

/-- A freshly initialised PPU over all-zero ROMs (horizontal mirroring),
used as the base state of witnesses and counterexamples. -/
def zeroPPU : PPU := PPU.init_ppu (fun _ => 0) Mirroring.HORIZONTAL (fun _ => 0)

/-- The PPU bus of `zeroPPU`. -/
def zeroPPUBus : PPUBus := zeroPPU.ppu_bus

/-- A freshly initialised CPU over an empty PRG image and `zeroPPU`,
reset register values per `CPU::init_cpu` (`SP = 0xFD`, `P = 0x24`). -/
def zeroCPU : CPU :=
  { cpu_clk := 0, accumulator := 0, x := 0, y := 0, pc := 0, sp := 0xFD, status := 0x24,
    cpu_bus := CPUBus.new [] zeroPPU }

/-- Claim C1: the spec says a CPU write to `0x4014` stores the byte as
the DMA page number and sets the DMA-halt flag, after which the next
CPU read runs the 256-byte OAM DMA.  In the code the `0x4014` arm of
the write dispatch sits inside the PPU-register branch, behind
`addr & 0x2007` masking, and `addr & 0x2007 ≤ 0x2007 < 0x4014` makes it
unreachable; a CPU write to `0x4014` falls into the APU stub instead
and the bus is returned entirely unchanged — no page stored, halt flag
never set, OAM never filled.  (The dead arm itself also stores the byte
into `ppu.oam_data`, while `execute_oam_dma` reads `ppu.oam_dma`.) -/
theorem claim_C1_oam_dma_write_is_noop :
    (∀ (bus : CPUBus) (d : Nat), CPUBus.mem_write bus 0x4014 d = bus)
    ∧ (∀ (bus : CPUBus) (a d : Nat), (CPUBus.mem_write bus a d).halt_flag = bus.halt_flag) := by
  constructor
  · intro bus d
    rfl
  · intro bus a d
    by_cases h1 : a ≤ 0x1FFF
    · simp [CPUBus.mem_write, h1]
    · by_cases h2 : a ≤ 0x3FFF
      · have hm : ¬ a &&& 0x2007 = 0x4014 := by
          have : a &&& 0x2007 ≤ 0x2007 := Nat.and_le_right
          omega
        simp only [CPUBus.mem_write, if_neg h1, if_pos h2]
        repeat' (split <;> try rfl)
      · by_cases h3 : a ≤ 0x4017 <;> simp [CPUBus.mem_write, h1, h2, h3]

/-- Claim C5 counterexample: the spec claims palette address 0x3F10
aliases 0x3F00 on both reads and writes, so writing `d` to 0x3F10 and
reading 0x3F00 should return `d`.  On the code, writing 0xAA to 0x3F10
stores into palette cell 0x10 (cell 0x00 untouched), and a PPU-bus read
of 0x3F00 returns the mirrored offset 0 — not 0xAA. -/
theorem claim_C5_counterexample :
    PPUBus.mem_read (PPUBus.mem_write zeroPPUBus 0x3F10 0xAA) 0x3F00 = 0
    ∧ (PPUBus.mem_write zeroPPUBus 0x3F10 0xAA).palette_mem 0x10 = 0xAA
    ∧ (PPUBus.mem_write zeroPPUBus 0x3F10 0xAA).palette_mem 0x00 = 0
    ∧ (0 : Nat) ≠ 0xAA := by
  refine ⟨rfl, rfl, rfl, by decide⟩

/-- Claim C5 (amended): palette writes land at the 32-byte-mirrored
offset `(addr - 0x3F00) & 0x1F` with no folding of 0x3F10/14/18/1C onto
0x3F00/04/08/0C — each of the eight cells is distinct — and palette
reads on the PPU bus return the mirrored offset itself (an index into
the palette lookup table), ignoring `palette_mem` entirely; so a write
to 0x3F10 is never observable through a read of 0x3F00. -/
theorem claim_C5_amended (pb : PPUBus) (d j : Nat) :
    ((PPUBus.mem_write pb 0x3F10 d).palette_mem j = if j = 0x10 then d else pb.palette_mem j)
    ∧ ((PPUBus.mem_write pb 0x3F00 d).palette_mem j = if j = 0x00 then d else pb.palette_mem j)
    ∧ ((PPUBus.mem_write pb 0x3F14 d).palette_mem j = if j = 0x14 then d else pb.palette_mem j)
    ∧ ((PPUBus.mem_write pb 0x3F04 d).palette_mem j = if j = 0x04 then d else pb.palette_mem j)
    ∧ ((PPUBus.mem_write pb 0x3F18 d).palette_mem j = if j = 0x18 then d else pb.palette_mem j)
    ∧ ((PPUBus.mem_write pb 0x3F08 d).palette_mem j = if j = 0x08 then d else pb.palette_mem j)
    ∧ ((PPUBus.mem_write pb 0x3F1C d).palette_mem j = if j = 0x1C then d else pb.palette_mem j)
    ∧ ((PPUBus.mem_write pb 0x3F0C d).palette_mem j = if j = 0x0C then d else pb.palette_mem j)
    ∧ PPUBus.mem_read pb 0x3F00 = 0x00 ∧ PPUBus.mem_read pb 0x3F10 = 0x10
    ∧ PPUBus.mem_read pb 0x3F04 = 0x04 ∧ PPUBus.mem_read pb 0x3F14 = 0x14
    ∧ PPUBus.mem_read pb 0x3F08 = 0x08 ∧ PPUBus.mem_read pb 0x3F18 = 0x18
    ∧ PPUBus.mem_read pb 0x3F0C = 0x0C ∧ PPUBus.mem_read pb 0x3F1C = 0x1C :=
  ⟨rfl, rfl, rfl, rfl, rfl, rfl, rfl, rfl,
   rfl, rfl, rfl, rfl, rfl, rfl, rfl, rfl⟩

/-- Claim C6 counterexample: the spec maps horizontal-mirrored
0x2800–0x2FFF to VRAM bank 1 at offset `0x400 + (addr & 0x3FF)`.  On
the code the default nametable arm adds `NAME_TABLE_SIZE - 1 = 0x3FF`,
so a write of 0xBB to 0x2800 lands at VRAM offset 0x3FF (the last byte
of bank 0), leaves offset 0x400 untouched, and is read back through the
bank-0 address 0x23FF. -/
theorem claim_C6_counterexample :
    (PPUBus.mem_write zeroPPUBus 0x2800 0xBB).vram 0x3FF = 0xBB
    ∧ (PPUBus.mem_write zeroPPUBus 0x2800 0xBB).vram 0x400 = 0
    ∧ PPUBus.mem_read (PPUBus.mem_write zeroPPUBus 0x2800 0xBB) 0x23FF = 0xBB := by
  refine ⟨by decide, by decide, by decide⟩

/-- Claim C6 (amended): nametable accesses map to the 2 KiB VRAM per
the cartridge mirroring for both reads and writes; bank-0 ranges use
offset `addr & 0x3FF` exactly as claimed, but bank-1 ranges use offset
`(addr & 0x3FF) + 0x3FF` (the code adds `NAME_TABLE_SIZE - 1 = 0x3FF`,
not 0x400, so bank 1 overlaps the last byte of bank 0 and never reaches
offset 0x7FF).  The claim's concrete examples still hold: under
horizontal mirroring a write of 0xAA at 0x2000 is read back at 0x2400,
and under vertical mirroring at 0x2800. -/
theorem claim_C6_nametable_mirroring (pb : PPUBus) (a d j : Nat)
    (h1 : 0x2000 ≤ a) (h2 : a ≤ 0x2FFF) :
    (pb.mirroring = Mirroring.HORIZONTAL → a < 0x2800 →
       PPUBus.mem_read pb a = pb.vram (a &&& 0x3FF)
       ∧ (PPUBus.mem_write pb a d).vram j = (if j = a &&& 0x3FF then d else pb.vram j))
    ∧ (pb.mirroring = Mirroring.HORIZONTAL → 0x2800 ≤ a →
       PPUBus.mem_read pb a = pb.vram ((a &&& 0x3FF) + 0x3FF)
       ∧ (PPUBus.mem_write pb a d).vram j = (if j = (a &&& 0x3FF) + 0x3FF then d else pb.vram j))
    ∧ (pb.mirroring = Mirroring.VERTICAL → (a < 0x2400 ∨ (0x2800 ≤ a ∧ a < 0x2C00)) →
       PPUBus.mem_read pb a = pb.vram (a &&& 0x3FF)
       ∧ (PPUBus.mem_write pb a d).vram j = (if j = a &&& 0x3FF then d else pb.vram j))
    ∧ (pb.mirroring = Mirroring.VERTICAL → ((0x2400 ≤ a ∧ a < 0x2800) ∨ 0x2C00 ≤ a) →
       PPUBus.mem_read pb a = pb.vram ((a &&& 0x3FF) + 0x3FF)
       ∧ (PPUBus.mem_write pb a d).vram j = (if j = (a &&& 0x3FF) + 0x3FF then d else pb.vram j))
    ∧ (pb.mirroring = Mirroring.HORIZONTAL →
       PPUBus.mem_read (PPUBus.mem_write pb 0x2000 0xAA) 0x2400 = 0xAA)
    ∧ (pb.mirroring = Mirroring.VERTICAL →
       PPUBus.mem_read (PPUBus.mem_write pb 0x2000 0xAA) 0x2800 = 0xAA) := by
  have hn : ¬ a ≤ 0x1FFF := by omega
  refine ⟨?_, ?_, ?_, ?_, ?_, ?_⟩
  · intro hm hr
    have hb : PPUBus.nt_bank0 pb.mirroring a := Or.inl ⟨hm, h1, hr⟩
    constructor
    · simp [PPUBus.mem_read, PPUBus.nt_index, NAME_TABLE_SIZE, hn, h1, h2, hb]
    · simp [PPUBus.mem_write, PPUBus.nt_index, NAME_TABLE_SIZE, h1, h2, hb]
  · intro hm hr
    have hb : ¬ PPUBus.nt_bank0 pb.mirroring a := by
      rw [hm]
      rintro (⟨_, _, hlt⟩ | ⟨heq, _, _⟩ | ⟨heq, _, _⟩)
      · omega
      · exact Mirroring.noConfusion heq
      · exact Mirroring.noConfusion heq
    constructor
    · simp [PPUBus.mem_read, PPUBus.nt_index, NAME_TABLE_SIZE, hn, h1, h2, hb]
    · simp [PPUBus.mem_write, PPUBus.nt_index, NAME_TABLE_SIZE, h1, h2, hb]
  · intro hm hr
    have hb : PPUBus.nt_bank0 pb.mirroring a := by
      rcases hr with hr | hr
      · exact Or.inr (Or.inl ⟨hm, h1, hr⟩)
      · exact Or.inr (Or.inr ⟨hm, hr.1, hr.2⟩)
    constructor
    · simp [PPUBus.mem_read, PPUBus.nt_index, NAME_TABLE_SIZE, hn, h1, h2, hb]
    · simp [PPUBus.mem_write, PPUBus.nt_index, NAME_TABLE_SIZE, h1, h2, hb]
  · intro hm hr
    have hb : ¬ PPUBus.nt_bank0 pb.mirroring a := by
      rw [hm]
      rintro (⟨heq, _, _⟩ | ⟨_, _, hlt⟩ | ⟨_, hge, hlt⟩)
      · exact Mirroring.noConfusion heq
      · omega
      · omega
    constructor
    · simp [PPUBus.mem_read, PPUBus.nt_index, NAME_TABLE_SIZE, hn, h1, h2, hb]
    · simp [PPUBus.mem_write, PPUBus.nt_index, NAME_TABLE_SIZE, h1, h2, hb]
  · intro hm
    simp [PPUBus.mem_write, PPUBus.mem_read, PPUBus.nt_index, PPUBus.nt_bank0, NAME_TABLE_SIZE, hm]
    intro hx
    exact absurd (by decide) hx
  · intro hm
    simp [PPUBus.mem_write, PPUBus.mem_read, PPUBus.nt_index, PPUBus.nt_bank0, NAME_TABLE_SIZE, hm]
    intro hx
    exact absurd (by decide) hx

/-- Claim C6 witness: the amended mapping evaluated on a fresh
horizontal-mirroring bus at address 0x2000. -/
theorem claim_C6_witness :
    PPUBus.mem_read zeroPPUBus 0x2000 = zeroPPUBus.vram (0x2000 &&& 0x3FF) :=
  ((claim_C6_nametable_mirroring zeroPPUBus 0x2000 0x55 0 (by decide) (by decide)).1
    rfl (by decide)).1

/-- A 16 KiB PRG ROM image whose reset vector bytes (at the mirrored
offsets 0x3FFC/0x3FFD) are 0x34 and 0xC0 — the spec's reset-vector
scenario. -/
def rom16k : List Nat := List.replicate 0x3FFC 0 ++ [0x34, 0xC0, 0, 0]

/-- Claim C7: the spec's reset scenario — a 16 KiB PRG ROM with
0x3FFC = 0x34, 0x3FFD = 0xC0 should initialise PC = 0xC034, SP = 0xFD,
P = 0x24.  `CPU::init_cpu` instead indexes
`prg_rom[0xFFFC % 0x8000] = prg_rom[0x7FFC]`, which is out of bounds
for a 16 KiB image, so initialisation panics (`none` here) instead of
reading the mirrored vector; `CPUBus::read_prg_rom` elsewhere in the
code performs exactly the 16 KiB mirroring that `init_cpu` forgot, and
reading the vector through it yields the intended 0x34.  For a 32 KiB
image the same index is the correct reset vector offset and `init_cpu`
produces `SP = 0xFD`, `P = 0x24`. -/
theorem claim_C7_reset_vector :
    CPU.init_cpu rom16k = none
    ∧ rom16k.length = 0x4000
    ∧ CPUBus.read_prg_rom (CPUBus.new rom16k zeroPPU) 0xFFFC = 0x34
    ∧ (∀ rom : List Nat, rom.length = 0x8000 →
        CPU.init_cpu rom = some (((rom.getD 0x7FFD 0) <<< 8) ||| rom.getD 0x7FFC 0, 0xFD, 0x24)) := by
  have hlen : rom16k.length = 0x4000 := by
    rw [rom16k, List.length_append, List.length_replicate]
    rfl
  refine ⟨?_, hlen, ?_, ?_⟩
  · have hcond : ¬ (0xFFFC % 0x8000 < rom16k.length ∧ 0xFFFD % 0x8000 < rom16k.length) := by
      rw [hlen]; decide
    simp only [CPU.init_cpu, if_neg hcond]
  · have hsome : rom16k[(0x3FFC : Nat)]? = some 0x34 := by
      rw [rom16k, List.getElem?_append_right (by rw [List.length_replicate]),
          List.length_replicate]
      rfl
    have hlt : (0x3FFC : Nat) < rom16k.length := by rw [hlen]; decide
    norm_num [CPUBus.read_prg_rom, CPUBus.new, hlen]
    rw [List.getElem?_eq_getElem hlt] at hsome
    exact Option.some.inj hsome
  · intro rom hl
    have hcond : 0xFFFC % 0x8000 < rom.length ∧ 0xFFFD % 0x8000 < rom.length := by
      rw [hl]; decide
    simp only [CPU.init_cpu, if_pos hcond]

/-- Claim C9 counterexample: the spec requires a fatal decoder error to
identify the offending opcode byte and the PC.  Opcodes 0x02 and 0x22
are both rejected, yet their dispatch results are identical — the panic
payload is the constant `Opcode not supported!` carrying neither an
opcode nor a PC — so the report cannot identify the opcode. -/
theorem claim_C9_counterexample :
    CPU.decode_accepts 0x02 = false
    ∧ CPU.decode_accepts 0x22 = false
    ∧ CPU.decode_dispatch 0x02 = CPU.decode_dispatch 0x22 :=
  ⟨rfl, rfl, rfl⟩

/-- Claim C9 (amended): the dispatch of `CPU::decode` accepts all 151
documented 6502 opcodes (listed in `documented_opcodes`, pairwise
distinct); every opcode byte outside the accepted set reaches a
`panic!` arm whose message is one of three fixed strings that include
neither the opcode byte nor the PC. -/
theorem claim_C9_opcode_acceptance :
    documented_opcodes.length = 151
    ∧ documented_opcodes.Nodup
    ∧ documented_opcodes.all CPU.decode_accepts = true := by
  refine ⟨by decide, by decide, by decide⟩

/-- A CPU bus whose PPU status register is 0xC3 (VBlank bit set, low
bits nonzero) and whose CPU-side data-bus latch is 0x1F: the state used
to refute claim C2's latch-merge and VBlank-clear behaviour. -/
def c2bus : CPUBus :=
  { CPUBus.new [] zeroPPU with
      ppu := { zeroPPU with status := 0xC3, w := 1 },
      ppu_latch := 0x1F }

/-- Claim C2 counterexample: per the spec, reading 0x2002 should return
`(status & 0xE0) | (latch & 0x1F) = 0xDF` here and leave status bit 7
clear.  The code returns the raw status byte 0xC3 and leaves the status
register — including bit 7 — untouched. -/
theorem claim_C2_counterexample :
    (CPUBus.mem_read c2bus 0x2002).1 = 0xC3
    ∧ ((0xC3 : Nat) &&& 0xE0) ||| (c2bus.ppu_latch &&& 0x1F) = 0xDF
    ∧ (0xC3 : Nat) ≠ 0xDF
    ∧ (CPUBus.mem_read c2bus 0x2002).2.ppu.status &&& 0x80 = 0x80 := by
  refine ⟨rfl, by decide, by decide, rfl⟩

/-- Claim C2 (amended): a CPU read of 0x2002 — or of any mirror of it in
0x2000–0x3FFF — returns the PPU status register unchanged (all eight
bits come from the status register; none from the data-bus latch),
clears the write toggle `w`, and copies the status byte into the
CPU-side data-bus latch.  The status register itself, including bit 7
(VBlank), is not modified by the read. -/
theorem claim_C2_ppustatus_read (bus : CPUBus) (addr : Nat)
    (h1 : 0x2000 ≤ addr) (h2 : addr ≤ 0x3FFF) (hm : addr &&& 0x2007 = 0x2002) :
    (CPUBus.mem_read bus addr).1 = bus.ppu.status
    ∧ (CPUBus.mem_read bus addr).2.ppu.w = 0
    ∧ (CPUBus.mem_read bus addr).2.ppu.status = bus.ppu.status
    ∧ (CPUBus.mem_read bus addr).2.ppu_latch = bus.ppu.status := by
  have hn : ¬ addr ≤ 0x1FFF := by omega
  simp [CPUBus.mem_read, hn, h2, hm]

/-- Claim C2 witness: the amended behaviour evaluated at the mirror
address 0x200A of `c2bus`. -/
theorem claim_C2_witness :
    (CPUBus.mem_read c2bus 0x200A).1 = c2bus.ppu.status
    ∧ (CPUBus.mem_read c2bus 0x200A).2.ppu.w = 0
    ∧ (CPUBus.mem_read c2bus 0x200A).2.ppu.status = c2bus.ppu.status
    ∧ (CPUBus.mem_read c2bus 0x200A).2.ppu_latch = c2bus.ppu.status :=
  claim_C2_ppustatus_read c2bus 0x200A (by decide) (by decide) (by decide)

/-- A CPU bus aimed at claim C3: `v = 0x3F05` (palette range), palette
cell 5 holds 0xAB, CHR byte 0x1F05 holds 0x11, and the nametable cell
underneath `v & 0x2FFF = 0x2F05` (VRAM offset 0x704 under horizontal
mirroring) holds 0x22. -/
def c3bus : CPUBus :=
  { CPUBus.new [] zeroPPU with
      ppu := { zeroPPU with
                 v := 0x3F05,
                 ppu_bus := { zeroPPU.ppu_bus with
                                palette_mem := fun i => if i = 5 then 0xAB else 0,
                                chr_rom := fun i => if i = 0x1F05 then 0x11 else 0,
                                vram := fun i => if i = 0x704 then 0x22 else 0 } } }

/-- Claim C3 counterexample: per the spec, a read of 0x2007 with
`v = 0x3F05` returns the stored palette byte (0xAB here) and refills
the read buffer from the nametable underneath at `v & 0x2FFF = 0x2F05`
(0x22 here).  The code returns 5 — the PPU-bus palette read yields the
mirrored offset, not the stored byte — and refills the buffer from
`v % 0x2000 = 0x1F05`, which is pattern-table space (0x11 here). -/
theorem claim_C3_counterexample :
    (CPUBus.mem_read c3bus 0x2007).1 = 5
    ∧ c3bus.ppu.ppu_bus.palette_mem 5 = 0xAB
    ∧ (5 : Nat) ≠ 0xAB
    ∧ (CPUBus.mem_read c3bus 0x2007).2.ppu.vram_latch = 0x11
    ∧ c3bus.ppu.ppu_bus.chr_rom 0x1F05 = 0x11
    ∧ PPUBus.mem_read c3bus.ppu.ppu_bus (0x3F05 &&& 0x2FFF) = 0x22
    ∧ (0x11 : Nat) ≠ 0x22 := by
  refine ⟨by decide, by decide, by decide, by decide, by decide, by decide, by decide⟩

/-- Claim C3 (amended): a CPU read of 0x2007 with `v` in
[0x3F00, 0x3FFF] returns `(v - 0x3F00) & 0x1F` — the PPU-bus palette
read returns the mirrored offset rather than a stored palette byte —
and refills the read buffer from PPU address `v % 0x2000` (pattern-table
space, not the `v & 0x2FFF` nametable); otherwise it returns the
previous contents of the read buffer and refills the buffer from `v`.
In both cases `v` is then incremented by 32 when `PPUCTRL` bit 2 is set
and by 1 otherwise, masked to 14 bits. -/
theorem claim_C3_ppudata_read (bus : CPUBus) :
    (CPUBus.mem_read bus 0x2007).1 =
      (if bus.ppu.v ≤ 0x3FFF ∧ bus.ppu.v ≥ 0x3F00 then (bus.ppu.v - 0x3F00) &&& 0x1F
       else bus.ppu.vram_latch)
    ∧ (CPUBus.mem_read bus 0x2007).2.ppu.vram_latch =
      (if bus.ppu.v ≤ 0x3FFF ∧ bus.ppu.v ≥ 0x3F00 then bus.ppu.ppu_bus.chr_rom (bus.ppu.v % 0x2000)
       else PPUBus.mem_read bus.ppu.ppu_bus bus.ppu.v)
    ∧ (CPUBus.mem_read bus 0x2007).2.ppu.v =
      (if bus.ppu.ctrl &&& 0x4 > 0 then (bus.ppu.v + 32) &&& 0x3FFF
       else (bus.ppu.v + 1) &&& 0x3FFF) := by
  by_cases hv : bus.ppu.v ≤ 0x3FFF ∧ bus.ppu.v ≥ 0x3F00
  · have hv1 : ¬ bus.ppu.v ≤ 0x1FFF := by omega
    have hv2 : ¬ (0x2000 ≤ bus.ppu.v ∧ bus.ppu.v ≤ 0x2FFF) := by omega
    have hv3 : 0x3F00 ≤ bus.ppu.v ∧ bus.ppu.v ≤ 0x3FFF := by omega
    have hu1 : bus.ppu.v % 0x2000 ≤ 0x1FFF := by omega
    refine ⟨?_, ?_, ?_⟩
    · simp [CPUBus.mem_read, hv, PPU.read_byte, PPUBus.mem_read, hv1, hv2, hv3,
            PALETTE_RAM_BEGIN, NUM_PALETTE_REGISTERS, PPU.increment_vram]
    · simp only [CPUBus.mem_read]
      norm_num [hv, PPU.read_byte, PPUBus.mem_read, hu1, PPU.increment_vram]
      split <;> rfl
    · simp only [CPUBus.mem_read]
      norm_num [hv, PPU.increment_vram]
      split <;> simp
  · refine ⟨?_, ?_, ?_⟩
    · simp [CPUBus.mem_read, hv]
    · simp only [CPUBus.mem_read]
      norm_num [hv, PPU.read_byte, PPU.increment_vram]
      split <;> rfl
    · simp only [CPUBus.mem_read]
      norm_num [hv, PPU.increment_vram]
      split <;> simp

/-- The status-byte update chain of `CPU.adc_step` with its four branch
decisions (carry, zero, negative, overflow) abstracted as booleans;
used to discharge the flag-extraction goals by exhaustive check over a
single status byte. -/
def adc_status_chain (s : Nat) (c z n v : Bool) : Nat :=
  let s := cond c (s ||| 0x1) (s &&& 0xFE)
  let s := cond z (s ||| 0x2) (s &&& 0xFD)
  let s := cond n (s ||| 0x80) (s &&& 0x7F)
  cond v (s ||| 0x40) (s &&& 0xBF)

/-- Each flag bit of the ADC status chain is exactly the corresponding
branch decision, for every 8-bit starting status. -/
theorem adc_status_chain_bits :
    ∀ s < 256, ∀ c z n v : Bool,
      (adc_status_chain s c z n v &&& 0x1 = cond c 1 0)
      ∧ (adc_status_chain s c z n v &&& 0x2 = cond z 2 0)
      ∧ (adc_status_chain s c z n v &&& 0x80 = cond n 0x80 0)
      ∧ (adc_status_chain s c z n v &&& 0x40 = cond v 0x40 0) := by decide

/-- Claim C8: ADC semantics.  For every 8-bit accumulator `a`, status
byte `st` (whose bit 0 is the input carry `c`) and operand `m`: the new
accumulator is `(a + m + c) mod 256`; the carry flag is set iff
`a + m + c > 0xFF`; Z is set iff the result is zero; N equals the
result's bit 7; and V is set iff `a` and `m` have equal sign bits and
the result's sign bit differs from them. -/
theorem claim_C8_adc_flags (a st m : Nat) (ha : a < 256) (hst : st < 256) (hm : m < 256) :
    (CPU.adc_step a st m).1 = (a + m + (st &&& 0x1)) % 256
    ∧ ((CPU.adc_step a st m).2 &&& 0x1 = if a + m + (st &&& 0x1) > 255 then 1 else 0)
    ∧ ((CPU.adc_step a st m).2 &&& 0x2 = if (a + m + (st &&& 0x1)) % 256 = 0 then 2 else 0)
    ∧ ((CPU.adc_step a st m).2 &&& 0x80 =
        if (a + m + (st &&& 0x1)) % 256 &&& 0x80 ≠ 0 then 0x80 else 0)
    ∧ ((CPU.adc_step a st m).2 &&& 0x40 =
        if a &&& 0x80 = m &&& 0x80 ∧ a &&& 0x80 ≠ (a + m + (st &&& 0x1)) % 256 &&& 0x80
        then 0x40 else 0) := by
  have key := adc_status_chain_bits st hst
  refine ⟨rfl, ?_, ?_, ?_, ?_⟩
  · simp only [CPU.adc_step, CPU.set_zero_neg, ← Bool.cond_decide]
    exact (key (decide (a + m + (st &&& 0x1) > 255))
               (decide ((a + m + (st &&& 0x1)) % 256 = 0))
               (decide ((a + m + (st &&& 0x1)) % 256 &&& 0x80 ≠ 0))
               (decide (a &&& 0x80 = m &&& 0x80 ∧ a &&& 0x80 ≠ (a + m + (st &&& 0x1)) % 256 &&& 0x80))).1
  · simp only [CPU.adc_step, CPU.set_zero_neg, ← Bool.cond_decide]
    exact (key (decide (a + m + (st &&& 0x1) > 255))
               (decide ((a + m + (st &&& 0x1)) % 256 = 0))
               (decide ((a + m + (st &&& 0x1)) % 256 &&& 0x80 ≠ 0))
               (decide (a &&& 0x80 = m &&& 0x80 ∧ a &&& 0x80 ≠ (a + m + (st &&& 0x1)) % 256 &&& 0x80))).2.1
  · simp only [CPU.adc_step, CPU.set_zero_neg, ← Bool.cond_decide]
    exact (key (decide (a + m + (st &&& 0x1) > 255))
               (decide ((a + m + (st &&& 0x1)) % 256 = 0))
               (decide ((a + m + (st &&& 0x1)) % 256 &&& 0x80 ≠ 0))
               (decide (a &&& 0x80 = m &&& 0x80 ∧ a &&& 0x80 ≠ (a + m + (st &&& 0x1)) % 256 &&& 0x80))).2.2.1
  · simp only [CPU.adc_step, CPU.set_zero_neg, ← Bool.cond_decide]
    exact (key (decide (a + m + (st &&& 0x1) > 255))
               (decide ((a + m + (st &&& 0x1)) % 256 = 0))
               (decide ((a + m + (st &&& 0x1)) % 256 &&& 0x80 ≠ 0))
               (decide (a &&& 0x80 = m &&& 0x80 ∧ a &&& 0x80 ≠ (a + m + (st &&& 0x1)) % 256 &&& 0x80))).2.2.2

/-- Claim C8 witness: the claim's concrete scenario A = 0x50, operand =
0x50, C = 0 (status 0x24): accumulator becomes 0xA0 with V = 1, N = 1,
C = 0, Z = 0. -/
theorem claim_C8_witness :
    (CPU.adc_step 0x50 0x24 0x50).1 = 0xA0
    ∧ (CPU.adc_step 0x50 0x24 0x50).2 &&& 0x40 = 0x40
    ∧ (CPU.adc_step 0x50 0x24 0x50).2 &&& 0x80 = 0x80
    ∧ (CPU.adc_step 0x50 0x24 0x50).2 &&& 0x1 = 0
    ∧ (CPU.adc_step 0x50 0x24 0x50).2 &&& 0x2 = 0 := by
  have h := claim_C8_adc_flags 0x50 0x24 0x50 (by decide) (by decide) (by decide)
  refine ⟨h.1, ?_, ?_, ?_, ?_⟩
  · rw [h.2.2.2.2]; decide
  · rw [h.2.2.2.1]; decide
  · rw [h.2.1]; decide
  · rw [h.2.2.1]; decide

/-- The state carried by either constructor of an early-return /
fall-through result of a `ppu_tick` block. -/
def PPU.exPPU : Except PPU PPU → PPU
  | Except.error q => q
  | Except.ok q => q

/-- `load_latch` touches only `ppu_latch`. -/
theorem load_latch_pres (p : PPU) (a : Nat) :
    (PPU.load_latch p a).ticks = p.ticks ∧ (PPU.load_latch p a).color_buffer = p.color_buffer :=
  ⟨rfl, rfl⟩

/-- `increment_vram` touches only `v`. -/
theorem increment_vram_pres (p : PPU) :
    (PPU.increment_vram p).ticks = p.ticks ∧ (PPU.increment_vram p).color_buffer = p.color_buffer := by
  unfold PPU.increment_vram
  split <;> exact ⟨rfl, rfl⟩

/-- `shift` touches only the shift registers. -/
theorem shift_pres (p : PPU) :
    (PPU.shift p).ticks = p.ticks ∧ (PPU.shift p).color_buffer = p.color_buffer :=
  ⟨rfl, rfl⟩

/-- `shift_reload` touches only the shift registers and the attribute
latch. -/
theorem shift_reload_pres (p : PPU) :
    (PPU.shift_reload p).ticks = p.ticks ∧ (PPU.shift_reload p).color_buffer = p.color_buffer :=
  ⟨rfl, rfl⟩

/-- `continue_render` never touches the ghost tick counter or the
framebuffer. -/
theorem continue_render_pres (p : PPU) :
    (PPU.continue_render p).ticks = p.ticks
    ∧ (PPU.continue_render p).color_buffer = p.color_buffer := by
  simp only [PPU.continue_render, PPU.load_latch]
  repeat' (split <;> try exact ⟨rfl, rfl⟩)

/-- `sprite_evaluation_tick` never touches the ghost tick counter or
the framebuffer. -/
theorem sprite_evaluation_tick_pres (p : PPU) :
    (PPU.sprite_evaluation_tick p).ticks = p.ticks
    ∧ (PPU.sprite_evaluation_tick p).color_buffer = p.color_buffer := by
  refine ⟨?_, ?_⟩
  · simp only [PPU.sprite_evaluation_tick, apply_ite PPU.ticks]
    repeat' (split <;> try rfl)
    all_goals simp [ite_self]
    all_goals (intros; split <;> rfl)
  · simp only [PPU.sprite_evaluation_tick, apply_ite PPU.color_buffer]
    repeat' (split <;> try rfl)
    all_goals simp [ite_self]
    all_goals (intros; split <;> rfl)

/-- `compare_against_sprites` touches only `pixel`. -/
theorem compare_against_sprites_pres (p : PPU) :
    (PPU.compare_against_sprites p).ticks = p.ticks
    ∧ (PPU.compare_against_sprites p).color_buffer = p.color_buffer := by
  unfold PPU.compare_against_sprites
  split <;> exact ⟨rfl, rfl⟩


/-- The guarded framebuffer store of `ppu_tick` seen from an
out-of-range index: whenever the store actually happens its index is
below `SCREEN_WIDTH * SCREEN_HEIGHT`, so every cell at or above that
bound is untouched. -/
theorem guarded_store_at_high (i : Nat) (hi : SCREEN_WIDTH * SCREEN_HEIGHT ≤ i)
    (idx rgb x : Nat) :
    (if idx < SCREEN_WIDTH * SCREEN_HEIGHT then (if i = idx then rgb else x) else x) = x := by
  split
  · rw [if_neg (by omega)]
  · rfl

/-- The frame-clear of scanline 241 (`color_buffer.fill(0)`) touches
only the `SCREEN_WIDTH * SCREEN_HEIGHT` cells of the array. -/
theorem fill_at_high (i : Nat) (hi : SCREEN_WIDTH * SCREEN_HEIGHT ≤ i) (x : Nat) :
    (if i < SCREEN_WIDTH * SCREEN_HEIGHT then 0 else x) = x := by
  rw [if_neg (by omega)]

/-- The visible-scanline body preserves the ghost tick counter. -/
theorem visible_body_ticks (p : PPU) :
    (PPU.exPPU (PPU.visible_body p)).ticks = p.ticks := by
  simp only [PPU.visible_body]
  simp only [apply_ite PPU.exPPU]
  simp only [PPU.exPPU]
  simp [continue_render_pres, sprite_evaluation_tick_pres, shift_pres, shift_reload_pres,
        compare_against_sprites_pres, apply_ite PPU.ticks, ite_self]

set_option maxHeartbeats 1000000

/-- The visible-scanline body never writes the framebuffer at or above
`SCREEN_WIDTH * SCREEN_HEIGHT`. -/
theorem visible_body_buffer (i : Nat) (hi : SCREEN_WIDTH * SCREEN_HEIGHT ≤ i) (p : PPU) :
    (PPU.exPPU (PPU.visible_body p)).color_buffer i = p.color_buffer i := by
  simp only [PPU.visible_body]
  simp only [apply_ite PPU.exPPU]
  simp only [PPU.exPPU]
  simp [apply_ite PPU.color_buffer, ite_apply, guarded_store_at_high i hi,
        compare_against_sprites_pres, continue_render_pres, sprite_evaluation_tick_pres,
        shift_pres, shift_reload_pres, ite_self]

/-- The visible-scanline block preserves the tick counter and the
high part of the framebuffer. -/
theorem visible_block_pres (i : Nat) (hi : SCREEN_WIDTH * SCREEN_HEIGHT ≤ i) (p : PPU) :
    (PPU.exPPU (PPU.visible_block p)).ticks = p.ticks
    ∧ (PPU.exPPU (PPU.visible_block p)).color_buffer i = p.color_buffer i := by
  unfold PPU.visible_block
  split
  · split
    · exact ⟨visible_body_ticks _, visible_body_buffer i hi _⟩
    · split
      · exact ⟨rfl, rfl⟩
      · exact ⟨visible_body_ticks _, visible_body_buffer i hi _⟩
  · exact ⟨rfl, rfl⟩

/-- Scanline-240 block preservation. -/
theorem block240_pres (i : Nat) (hi : SCREEN_WIDTH * SCREEN_HEIGHT ≤ i) (p : PPU) :
    (PPU.exPPU (PPU.block240 p)).ticks = p.ticks
    ∧ (PPU.exPPU (PPU.block240 p)).color_buffer i = p.color_buffer i := by
  refine ⟨?_, ?_⟩
  · simp only [PPU.block240]
    simp only [apply_ite PPU.exPPU]
    simp only [PPU.exPPU]
    simp [apply_ite PPU.ticks, ite_self]
  · simp only [PPU.block240]
    simp only [apply_ite PPU.exPPU]
    simp only [PPU.exPPU]
    simp [apply_ite PPU.color_buffer, ite_apply, ite_self]

/-- Scanline-241 block preservation: its only framebuffer mutation is
the in-place clear, which touches only the array's cells. -/
theorem block241_pres (i : Nat) (hi : SCREEN_WIDTH * SCREEN_HEIGHT ≤ i) (p : PPU) :
    (PPU.exPPU (PPU.block241 p)).ticks = p.ticks
    ∧ (PPU.exPPU (PPU.block241 p)).color_buffer i = p.color_buffer i := by
  refine ⟨?_, ?_⟩
  · simp only [PPU.block241]
    simp only [apply_ite PPU.exPPU]
    simp only [PPU.exPPU]
    simp [apply_ite PPU.ticks, ite_self]
  · simp only [PPU.block241]
    simp only [apply_ite PPU.exPPU]
    simp only [PPU.exPPU]
    simp [apply_ite PPU.color_buffer, ite_apply, ite_self, fill_at_high i hi]

/-- VBlank-scanlines block preservation. -/
theorem vblank_block_pres (i : Nat) (hi : SCREEN_WIDTH * SCREEN_HEIGHT ≤ i) (p : PPU) :
    (PPU.exPPU (PPU.vblank_block p)).ticks = p.ticks
    ∧ (PPU.exPPU (PPU.vblank_block p)).color_buffer i = p.color_buffer i := by
  refine ⟨?_, ?_⟩
  · simp only [PPU.vblank_block]
    simp only [apply_ite PPU.exPPU]
    simp only [PPU.exPPU]
    simp [apply_ite PPU.ticks, ite_self]
  · simp only [PPU.vblank_block]
    simp only [apply_ite PPU.exPPU]
    simp only [PPU.exPPU]
    simp [apply_ite PPU.color_buffer, ite_apply, ite_self]

/-- Pre-render-scanline (261) block preservation. -/
theorem block261_pres (i : Nat) (hi : SCREEN_WIDTH * SCREEN_HEIGHT ≤ i) (p : PPU) :
    (PPU.exPPU (PPU.block261 p)).ticks = p.ticks
    ∧ (PPU.exPPU (PPU.block261 p)).color_buffer i = p.color_buffer i := by
  refine ⟨?_, ?_⟩
  · simp only [PPU.block261]
    simp only [apply_ite PPU.exPPU]
    simp only [PPU.exPPU]
    simp [continue_render_pres, shift_pres, shift_reload_pres, apply_ite PPU.ticks, ite_self]
  · simp only [PPU.block261]
    simp only [apply_ite PPU.exPPU]
    simp only [PPU.exPPU]
    simp [continue_render_pres, shift_pres, shift_reload_pres,
          apply_ite PPU.color_buffer, ite_apply, ite_self]

/-- `ppu_tick` advances the ghost dot counter by exactly one and never
writes the framebuffer at or above `SCREEN_WIDTH * SCREEN_HEIGHT`. -/
theorem ppu_tick_pres (i : Nat) (hi : SCREEN_WIDTH * SCREEN_HEIGHT ≤ i) (p : PPU) :
    (PPU.ppu_tick p).ticks = p.ticks + 1
    ∧ (PPU.ppu_tick p).color_buffer i = p.color_buffer i := by
  unfold PPU.ppu_tick
  have hv := visible_block_pres i hi { p with ticks := p.ticks + 1 }
  rcases h1 : PPU.visible_block { p with ticks := p.ticks + 1 } with q1 | q1 <;>
    rw [h1] at hv <;> simp only [PPU.exPPU] at hv <;> simp only [h1]
  · exact hv
  have h240 := block240_pres i hi q1
  rcases h2 : PPU.block240 q1 with q2 | q2 <;>
    rw [h2] at h240 <;> simp only [PPU.exPPU] at h240 <;> simp only [h2]
  · exact ⟨h240.1.trans hv.1, h240.2.trans hv.2⟩
  have h241 := block241_pres i hi q2
  rcases h3 : PPU.block241 q2 with q3 | q3 <;>
    rw [h3] at h241 <;> simp only [PPU.exPPU] at h241 <;> simp only [h3]
  · exact ⟨h241.1.trans (h240.1.trans hv.1), h241.2.trans (h240.2.trans hv.2)⟩
  have hvb := vblank_block_pres i hi q3
  rcases h4 : PPU.vblank_block q3 with q4 | q4 <;>
    rw [h4] at hvb <;> simp only [PPU.exPPU] at hvb <;> simp only [h4]
  · exact ⟨hvb.1.trans (h241.1.trans (h240.1.trans hv.1)),
           hvb.2.trans (h241.2.trans (h240.2.trans hv.2))⟩
  have h261 := block261_pres i hi q4
  rcases h5 : PPU.block261 q4 with q5 | q5 <;>
    rw [h5] at h261 <;> simp only [PPU.exPPU] at h261 <;> simp only [h5]
  · exact ⟨h261.1.trans (hvb.1.trans (h241.1.trans (h240.1.trans hv.1))),
           h261.2.trans (hvb.2.trans (h241.2.trans (h240.2.trans hv.2)))⟩
  · exact ⟨h261.1.trans (hvb.1.trans (h241.1.trans (h240.1.trans hv.1))),
           h261.2.trans (hvb.2.trans (h241.2.trans (h240.2.trans hv.2)))⟩

/-- One `ppu_tick` call is one dot tick. -/
theorem ppu_tick_ticks (p : PPU) : (PPU.ppu_tick p).ticks = p.ticks + 1 :=
  (ppu_tick_pres (SCREEN_WIDTH * SCREEN_HEIGHT) (Nat.le_refl _) p).1

/-- `load_scroll` never touches the ghost tick counter. -/
theorem load_scroll_ticks (p : PPU) (d : Nat) : (PPU.load_scroll p d).ticks = p.ticks := by
  unfold PPU.load_scroll
  split <;> rfl

/-- `load_addr_byte` never touches the ghost tick counter. -/
theorem load_addr_byte_ticks (p : PPU) (d : Nat) : (PPU.load_addr_byte p d).ticks = p.ticks := by
  unfold PPU.load_addr_byte
  split <;> rfl

/-- `cpu_write_byte` never touches the ghost tick counter. -/
theorem cpu_write_byte_ticks (p : PPU) (d : Nat) : (PPU.cpu_write_byte p d).ticks = p.ticks := by
  simp [PPU.cpu_write_byte, increment_vram_pres]

/-- `CPUBus::mem_read` never ticks the PPU. -/
theorem mem_read_ppu_ticks (bus : CPUBus) (a : Nat) :
    (CPUBus.mem_read bus a).2.ppu.ticks = bus.ppu.ticks := by
  unfold CPUBus.mem_read
  simp only [apply_ite Prod.snd]
  simp only [apply_ite CPUBus.ppu]
  simp only [apply_ite PPU.ticks]
  simp only [(increment_vram_pres _).1]
  simp [ite_self]

/-- `CPUBus::mem_write` never ticks the PPU. -/
theorem mem_write_ppu_ticks (bus : CPUBus) (a d : Nat) :
    (CPUBus.mem_write bus a d).ppu.ticks = bus.ppu.ticks := by
  unfold CPUBus.mem_write
  simp only [apply_ite CPUBus.ppu]
  simp only [apply_ite PPU.ticks]
  simp only [load_scroll_ticks, load_addr_byte_ticks, cpu_write_byte_ticks, PPU.oam_data_set]
  simp [ite_self]

/-- When the PPU's NMI flag is not raised, `CPU::nmi` does nothing, at
every sampling depth. -/
theorem nmiAt_not_pending (fuel : Nat) (c : CPU) (h : c.cpu_bus.ppu.nmi ≠ 1) :
    CPU.nmiAt fuel c = c := by
  cases fuel with
  | zero => rfl
  | succ k => simp [CPU.nmiAt, CPU.nmi_body, h]

/-- The pre-NMI part of `CPU::read_byte` counts one CPU cycle and
advances the PPU by exactly three dot ticks. -/
theorem read_pre_counts (c : CPU) (addr : Nat) :
    (CPU.read_pre c addr).2.cpu_bus.ppu.ticks = c.cpu_bus.ppu.ticks + 3
    ∧ (CPU.read_pre c addr).2.cpu_clk = c.cpu_clk + 1 := by
  constructor
  · simp [CPU.read_pre, CPU.tick3, ppu_tick_ticks, mem_read_ppu_ticks]
  · rfl

/-- The pre-NMI part of `CPU::write_byte` counts one CPU cycle and
advances the PPU by exactly three dot ticks. -/
theorem write_pre_counts (c : CPU) (addr data : Nat) :
    (CPU.write_pre c addr data).cpu_bus.ppu.ticks = c.cpu_bus.ppu.ticks + 3
    ∧ (CPU.write_pre c addr data).cpu_clk = c.cpu_clk + 1 := by
  constructor
  · simp [CPU.write_pre, CPU.tick3, ppu_tick_ticks, mem_write_ppu_ticks]
  · rfl

/-- Claim C4 (amended): a CPU byte read with the DMA-halt flag clear,
and every CPU byte write, counts one CPU cycle, advances the PPU by
exactly three dot ticks and then samples the NMI line (the sample is
the identity when no NMI is pending; if one is pending, the handler
entry sequence performs further such accesses).  The 16-bit operand
fetch `CPU::fetch_word`, however, reads the bus directly through
`mem_read_u16`: it advances the PPU by zero dot ticks and does not
count a CPU cycle either — so the code's invariant
`dots = 3 × cpu_clk` survives only because the operand fetch is
invisible to both counters, not because it ticks the PPU. -/
theorem claim_C4_clock_coupling (fuel : Nat) (c : CPU) (addr data : Nat)
    (hhalt : c.cpu_bus.halt_flag = false)
    (hr : (CPU.read_pre c addr).2.cpu_bus.ppu.nmi ≠ 1)
    (hw : (CPU.write_pre c addr data).cpu_bus.ppu.nmi ≠ 1) :
    ((CPU.read_byte (CPU.nmiAt fuel) c addr).2.cpu_bus.ppu.ticks = c.cpu_bus.ppu.ticks + 3
      ∧ (CPU.read_byte (CPU.nmiAt fuel) c addr).2.cpu_clk = c.cpu_clk + 1)
    ∧ ((CPU.write_byte (CPU.nmiAt fuel) c addr data).cpu_bus.ppu.ticks = c.cpu_bus.ppu.ticks + 3
      ∧ (CPU.write_byte (CPU.nmiAt fuel) c addr data).cpu_clk = c.cpu_clk + 1)
    ∧ ((CPU.fetch_word c).2.cpu_bus.ppu.ticks = c.cpu_bus.ppu.ticks
      ∧ (CPU.fetch_word c).2.cpu_clk = c.cpu_clk) := by
  have hnr : CPU.nmiAt fuel (CPU.read_pre c addr).2 = (CPU.read_pre c addr).2 :=
    nmiAt_not_pending fuel _ hr
  have hnw : CPU.nmiAt fuel (CPU.write_pre c addr data) = CPU.write_pre c addr data :=
    nmiAt_not_pending fuel _ hw
  refine ⟨⟨?_, ?_⟩, ⟨?_, ?_⟩, rfl, rfl⟩
  · simp [CPU.read_byte, hhalt, CPU.read_byte_core, hnr, (read_pre_counts c addr).1]
  · simp [CPU.read_byte, hhalt, CPU.read_byte_core, hnr, (read_pre_counts c addr).2]
  · simp [CPU.write_byte, hnw, (write_pre_counts c addr data).1]
  · simp [CPU.write_byte, hnw, (write_pre_counts c addr data).2]

/-- Claim C4 counterexample: on the freshly initialised CPU, fetching a
16-bit operand (`CPU::fetch_word`, used by absolute-addressing decode
paths) advances the PPU by zero dot ticks, not three as the claim
requires for "the reads used to fetch 16-bit operands". -/
theorem claim_C4_counterexample :
    (CPU.fetch_word zeroCPU).2.cpu_bus.ppu.ticks = 0
    ∧ zeroCPU.cpu_bus.ppu.ticks = 0
    ∧ (0 : Nat) ≠ 0 + 3 := by
  refine ⟨rfl, rfl, by decide⟩

/-- Claim C4 witness: the amended statement evaluated on the fresh CPU
at address 0, data 7, NMI sampling depth 1. -/
theorem claim_C4_witness :
    ((CPU.read_byte (CPU.nmiAt 1) zeroCPU 0).2.cpu_bus.ppu.ticks = zeroCPU.cpu_bus.ppu.ticks + 3
      ∧ (CPU.read_byte (CPU.nmiAt 1) zeroCPU 0).2.cpu_clk = zeroCPU.cpu_clk + 1)
    ∧ ((CPU.write_byte (CPU.nmiAt 1) zeroCPU 0 7).cpu_bus.ppu.ticks = zeroCPU.cpu_bus.ppu.ticks + 3
      ∧ (CPU.write_byte (CPU.nmiAt 1) zeroCPU 0 7).cpu_clk = zeroCPU.cpu_clk + 1)
    ∧ ((CPU.fetch_word zeroCPU).2.cpu_bus.ppu.ticks = zeroCPU.cpu_bus.ppu.ticks
      ∧ (CPU.fetch_word zeroCPU).2.cpu_clk = zeroCPU.cpu_clk) :=
  claim_C4_clock_coupling 1 zeroCPU 0 7 rfl (by decide) (by decide)

/-- Claim C10: for every call to `ppu_tick`, and for every state, the
framebuffer at or above index `SCREEN_WIDTH * SCREEN_HEIGHT = 61440` is
never written: the single pixel store uses `scanline * 256 + dots` and
is guarded by `index < color_buffer.len()`, and the frame clear touches
only the array's cells — so rendering never accesses the framebuffer
out of range. -/
theorem claim_C10_framebuffer_bounds (p : PPU) (i : Nat)
    (hi : SCREEN_WIDTH * SCREEN_HEIGHT ≤ i) :
    (PPU.ppu_tick p).color_buffer i = p.color_buffer i :=
  (ppu_tick_pres i hi p).2

/-- Claim C10 witness: the bound evaluated one past the framebuffer on
the freshly initialised PPU. -/
theorem claim_C10_witness :
    (PPU.ppu_tick zeroPPU).color_buffer 61440 = zeroPPU.color_buffer 61440 :=
  claim_C10_framebuffer_bounds zeroPPU 61440 (by decide)
